import Mathlib

/-!
Verification of the pkger declarative-package engine (src/pkger/service.go).

The Go code is shallowly embedded: Go structs become Lean structures, Go
maps (`map[string]*stateX`) become association lists `List (String × stateX)`,
pointer mutation becomes functional record update, and calls into external
resource services are represented by explicit function-valued service records
or by operation traces.  `influxdb.ID` (a uint64 used only for equality and
zero tests here) is embedded as `Nat`.
-/

set_option autoImplicit false

namespace Pkger

/-- Embeds `influxdb.ID` (uint64; used only for equality / zero tests). -/
abbrev InfluxID := Nat

/-- Embeds `influxdb.ResourceType` (a string). -/
abbrev ResourceType := String

/-- `StateStatus` is a string type declared in the pkger model file (outside
the included sources).  Modelled from the spec: status ∈ NEW, EXISTS, REMOVE
(§3 State Record), as distinct non-empty strings. -/
abbrev StateStatus := String

/-- Modelled from the spec: the NEW state status constant. -/
def StateStatusNew : StateStatus := "new"

/-- Modelled from the spec: the EXISTS state status constant. -/
def StateStatusExists : StateStatus := "exists"

/-- Modelled from the spec: the REMOVE state status constant. -/
def StateStatusRemove : StateStatus := "remove"

/-- Embeds `IsNew` (service.go:4519-4523): the zero value (empty string)
also counts as new. -/
def IsNew (status : StateStatus) : Bool :=
  status == StateStatusNew || status == ""

/-- Embeds `IsExisting` (service.go:4525-4528). -/
def IsExisting (status : StateStatus) : Bool :=
  status == StateStatusExists

/-- Embeds `IsRemoval` (service.go:4530-4534). -/
def IsRemoval (status : StateStatus) : Bool :=
  status == StateStatusRemove

/-- The closed set of resource kinds.  The `Kind` type is declared in the
parser (outside the included sources); its constructors here are exactly the
kind constants matched by the dispatch switches in service.go
(`get`, `addObjectForRemoval`, `getObjectIDSetter`). -/
inductive Kind where
  | bucket
  | check
  | checkDeadman
  | checkThreshold
  | dashboard
  | label
  | notifEndpoint
  | notifEndpointHTTP
  | notifEndpointPagerDuty
  | notifEndpointSlack
  | notifRule
  | task
  | telegraf
  | variable'
deriving DecidableEq, Repr

/-- The nine per-kind state families.  The three check kinds share the check
family and the four endpoint kinds share the endpoint family, exactly as the
grouped cases of the dispatch switches in service.go do. -/
inductive Family where
  | bucket
  | check
  | dashboard
  | label
  | endpoint
  | rule
  | task
  | telegraf
  | variable'
deriving DecidableEq, Repr

/-- The family of a kind: the grouping used by every dispatch switch in
service.go (e.g. service.go:3506-3541). -/
def Kind.family : Kind → Family
  | .bucket => .bucket
  | .check | .checkDeadman | .checkThreshold => .check
  | .dashboard => .dashboard
  | .label => .label
  | .notifEndpoint | .notifEndpointHTTP | .notifEndpointPagerDuty
  | .notifEndpointSlack => .endpoint
  | .notifRule => .rule
  | .task => .task
  | .telegraf => .telegraf
  | .variable' => .variable'

/-! ### Association-list model of Go maps

Go `map[κ]v` with unique keys is embedded as `List (κ × v)`; `mapGet` is map
indexing, `mapPut` is `m[k] = v` (overwrite or insert), `mapUpd` is mutation
through a pointer obtained from the map. -/

/-- Go map read `v, ok := m[k]`. -/
def mapGet {κ α : Type} [BEq κ] (m : List (κ × α)) (k : κ) : Option α :=
  (m.find? (fun kv => kv.1 == k)).map (·.2)

/-- Mutation of the value a Go map holds for key `k` (through its pointer). -/
def mapUpd {κ α : Type} [BEq κ] (m : List (κ × α)) (k : κ) (f : α → α) :
    List (κ × α) :=
  m.map (fun kv => if kv.1 == k then (kv.1, f kv.2) else kv)

/-- Go map write `m[k] = v`: overwrite if present, insert otherwise. -/
def mapPut {κ α : Type} [BEq κ] (m : List (κ × α)) (k : κ) (v : α) :
    List (κ × α) :=
  if (mapGet m k).isSome then mapUpd m k (fun _ => v) else m ++ [(k, v)]

/-! ### Platform entity types

These embed the `influxdb.*` resource types (declared outside the included
sources) with exactly the fields service.go reads.  `influxdb.Check`,
`influxdb.NotificationEndpoint` and `influxdb.NotificationRule` are Go
interfaces; their getter surface (`GetID`, `GetName`, ...) becomes plain
fields. -/

/-- Embeds `influxdb.Bucket` (fields read by service.go). -/
structure InfluxBucket where
  id : InfluxID
  name : String
  description : String
  retentionPeriod : Nat
deriving DecidableEq, Repr

/-- Embeds the `influxdb.Check` interface surface used by service.go. -/
structure InfluxCheck where
  id : InfluxID
  name : String
  description : String
deriving DecidableEq, Repr

/-- Embeds `influxdb.Dashboard` (fields read by service.go). -/
structure InfluxDashboard where
  id : InfluxID
  name : String
  description : String
deriving DecidableEq, Repr

/-- Embeds `influxdb.Label`.  The Go `Properties map[string]string` is read
only at the "description" and "color" keys (service.go:3998-4004,
4015-4020); those two entries become fields. -/
structure InfluxLabel where
  id : InfluxID
  name : String
  description : String
  color : String
deriving DecidableEq, Repr

/-- Embeds the `influxdb.NotificationEndpoint` interface surface used by
service.go. -/
structure InfluxEndpoint where
  id : InfluxID
  name : String
deriving DecidableEq, Repr

/-- Embeds the `influxdb.NotificationRule` interface surface used by
service.go. -/
structure InfluxRule where
  id : InfluxID
  name : String
deriving DecidableEq, Repr

/-- Embeds `influxdb.Task` (fields read by service.go). -/
structure InfluxTask where
  id : InfluxID
  name : String
deriving DecidableEq, Repr

/-- Embeds `influxdb.TelegrafConfig` (fields read by service.go). -/
structure InfluxTelegraf where
  id : InfluxID
  name : String
deriving DecidableEq, Repr

/-- Stand-in for `influxdb.VariableArguments`; service.go only compares
arguments for (deep) equality (service.go:4494-4500). -/
abbrev VarArgs := String

/-- Embeds `influxdb.Variable` (fields read by service.go). -/
structure InfluxVariable where
  id : InfluxID
  name : String
  description : String
  arguments : Option VarArgs
deriving DecidableEq, Repr

/-! ### Parser types

The parser object types (`bucket`, `check`, ... in parser files outside the
included sources) are modelled from the spec (§3 Entities): each carries its
pkg-name, its resolved display name, the observable resource fields service.go
reads, and its label associations as a list of label pkg-names (the Go code
stores pointers to the package's label objects and reads their `PkgName()`). -/

/-- Parser form of a bucket.  `retentionRP` models `RetentionRules.RP()`. -/
structure bucket where
  pkgName : String
  name : String
  description : String := ""
  retentionRP : Nat := 0
  labels : List String := []
deriving DecidableEq, Repr

/-- Parser form of a check. -/
structure check where
  pkgName : String
  name : String
  description : String := ""
  labels : List String := []
deriving DecidableEq, Repr

/-- Parser form of a dashboard. -/
structure dashboard where
  pkgName : String
  name : String
  description : String := ""
  labels : List String := []
deriving DecidableEq, Repr

/-- Parser form of a label. -/
structure label where
  pkgName : String
  name : String
  description : String := ""
  color : String := ""
deriving DecidableEq, Repr

/-- Parser form of a notification endpoint. -/
structure notificationEndpoint where
  pkgName : String
  name : String
  labels : List String := []
deriving DecidableEq, Repr

/-- Parser form of a notification rule.  `endpointPkgName` models the parser
method `endpointPkgName()` (the pkg-name of the endpoint the rule references,
spec §3 invariant 2); `endpointName` is the raw name used in the dependency
error message (service.go:832). -/
structure notificationRule where
  pkgName : String
  name : String
  endpointPkgName : String := ""
  endpointName : String := ""
  labels : List String := []
deriving DecidableEq, Repr

/-- Parser form of a task. -/
structure task where
  pkgName : String
  name : String
  description : String := ""
  labels : List String := []
deriving DecidableEq, Repr

/-- Parser form of a telegraf config. -/
structure telegraf where
  pkgName : String
  name : String
  description : String := ""
  labels : List String := []
deriving DecidableEq, Repr

/-- Parser form of a variable.  `influxVarArgs` models the method of the same
name whose result is compared against `existing.Arguments`. -/
structure variable' where
  pkgName : String
  name : String
  description : String := ""
  influxVarArgs : VarArgs := ""
  labels : List String := []
deriving DecidableEq, Repr

/-! ### State records (service.go:3709-4517)

Each Go `state<Kind>` struct becomes a structure; the nil-able `existing`
pointer / interface becomes an `Option`. -/

/-- Embeds `stateBucket` (service.go:3721-3727). -/
structure stateBucket where
  id : InfluxID := 0
  orgID : InfluxID := 0
  stateStatus : StateStatus
  parserBkt : bucket
  existing : Option InfluxBucket := none
deriving DecidableEq, Repr

/-- Embeds `stateBucket.ID` (service.go:3762-3767). -/
def stateBucket.ID (b : stateBucket) : InfluxID :=
  match b.existing with
  | some e => if !IsNew b.stateStatus then e.id else b.id
  | none => b.id

/-- Embeds `stateBucket.shouldApply` (service.go:3787-3793). -/
def stateBucket.shouldApply (b : stateBucket) : Bool :=
  IsRemoval b.stateStatus ||
    match b.existing with
    | none => true
    | some e =>
        b.parserBkt.description != e.description ||
        b.parserBkt.name != e.name ||
        b.parserBkt.retentionRP != e.retentionPeriod

/-- Embeds `stateCheck` (service.go:3795-3801). -/
structure stateCheck where
  id : InfluxID := 0
  orgID : InfluxID := 0
  stateStatus : StateStatus
  parserCheck : check
  existing : Option InfluxCheck := none
deriving DecidableEq, Repr

/-- Embeds `stateCheck.ID` (service.go:3803-3808). -/
def stateCheck.ID (c : stateCheck) : InfluxID :=
  match c.existing with
  | some e => if !IsNew c.stateStatus then e.id else c.id
  | none => c.id

/-- Embeds `stateDashboard` (service.go:3858-3864). -/
structure stateDashboard where
  id : InfluxID := 0
  orgID : InfluxID := 0
  stateStatus : StateStatus
  parserDash : dashboard
  existing : Option InfluxDashboard := none
deriving DecidableEq, Repr

/-- Embeds `stateDashboard.ID` (service.go:3866-3871). -/
def stateDashboard.ID (d : stateDashboard) : InfluxID :=
  match d.existing with
  | some e => if !IsNew d.stateStatus then e.id else d.id
  | none => d.id

/-- Embeds `stateLabel` (service.go:3951-3957). -/
structure stateLabel where
  id : InfluxID := 0
  orgID : InfluxID := 0
  stateStatus : StateStatus
  parserLabel : label
  existing : Option InfluxLabel := none
deriving DecidableEq, Repr

/-- Embeds `stateLabel.ID` (service.go:3991-3996). -/
def stateLabel.ID (l : stateLabel) : InfluxID :=
  match l.existing with
  | some e => if !IsNew l.stateStatus then e.id else l.id
  | none => l.id

/-- Embeds `stateLabel.shouldApply` (service.go:3998-4004). -/
def stateLabel.shouldApply (l : stateLabel) : Bool :=
  IsRemoval l.stateStatus ||
    match l.existing with
    | none => true
    | some e =>
        l.parserLabel.description != e.description ||
        l.parserLabel.name != e.name ||
        l.parserLabel.color != e.color

/-- Embeds `stateEndpoint` (service.go:4088-4094). -/
structure stateEndpoint where
  id : InfluxID := 0
  orgID : InfluxID := 0
  stateStatus : StateStatus
  parserEndpoint : notificationEndpoint
  existing : Option InfluxEndpoint := none
deriving DecidableEq, Repr

/-- Embeds `stateEndpoint.ID` (service.go:4096-4101). -/
def stateEndpoint.ID (e : stateEndpoint) : InfluxID :=
  match e.existing with
  | some ex => if !IsNew e.stateStatus then ex.id else e.id
  | none => e.id

/-- Embeds `stateRule` (service.go:4155-4163). -/
structure stateRule where
  id : InfluxID := 0
  orgID : InfluxID := 0
  stateStatus : StateStatus
  associatedEndpoint : Option stateEndpoint := none
  parserRule : notificationRule
  existing : Option InfluxRule := none
deriving DecidableEq, Repr

/-- Embeds `stateRule.ID` (service.go:4165-4170). -/
def stateRule.ID (r : stateRule) : InfluxID :=
  match r.existing with
  | some e => if !IsNew r.stateStatus then e.id else r.id
  | none => r.id

/-- Embeds `stateRule.endpointPkgName` (service.go:4259-4264). -/
def stateRule.endpointPkgName (r : stateRule) : String :=
  match r.associatedEndpoint with
  | some e => e.parserEndpoint.pkgName
  | none => ""

/-- Embeds `stateTask` (service.go:4320-4326). -/
structure stateTask where
  id : InfluxID := 0
  orgID : InfluxID := 0
  stateStatus : StateStatus
  parserTask : task
  existing : Option InfluxTask := none
deriving DecidableEq, Repr

/-- Embeds `stateTask.ID` (service.go:4328-4333). -/
def stateTask.ID (t : stateTask) : InfluxID :=
  match t.existing with
  | some e => if !IsNew t.stateStatus then e.id else t.id
  | none => t.id

/-- Embeds `stateTelegraf` (service.go:4394-4400). -/
structure stateTelegraf where
  id : InfluxID := 0
  orgID : InfluxID := 0
  stateStatus : StateStatus
  parserTelegraf : telegraf
  existing : Option InfluxTelegraf := none
deriving DecidableEq, Repr

/-- Embeds `stateTelegraf.ID` (service.go:4402-4407). -/
def stateTelegraf.ID (t : stateTelegraf) : InfluxID :=
  match t.existing with
  | some e => if !IsNew t.stateStatus then e.id else t.id
  | none => t.id

/-- Embeds `stateVariable` (service.go:4446-4452). -/
structure stateVariable where
  id : InfluxID := 0
  orgID : InfluxID := 0
  stateStatus : StateStatus
  parserVar : variable'
  existing : Option InfluxVariable := none
deriving DecidableEq, Repr

/-- Embeds `stateVariable.ID` (service.go:4454-4459). -/
def stateVariable.ID (v : stateVariable) : InfluxID :=
  match v.existing with
  | some e => if !IsNew v.stateStatus then e.id else v.id
  | none => v.id

/-- Embeds `stateVariable.shouldApply` (service.go:4494-4500). -/
def stateVariable.shouldApply (v : stateVariable) : Bool :=
  IsRemoval v.stateStatus ||
    match v.existing with
    | none => true
    | some e =>
        e.description != v.parserVar.description ||
        e.arguments == none ||
        !(e.arguments == some v.parserVar.influxVarArgs)

/-- Embeds `stateIdentity` (service.go:3709-3715). -/
structure stateIdentity where
  id : InfluxID
  name : String
  pkgName : String
  resourceType : ResourceType
  stateStatus : StateStatus
deriving DecidableEq, Repr

/-- Embeds `stateLabelMapping` (service.go:4022-4030).  The `resource`
interface value is represented by its `stateIdentity()` view, the only
capability the code uses of it. -/
structure stateLabelMapping where
  status : StateStatus
  resource : stateIdentity
  label : Option stateLabel
deriving DecidableEq, Repr

/-- Embeds `stateLabelMappingForRemoval` (service.go:4069-4075). -/
structure stateLabelMappingForRemoval where
  labelID : InfluxID
  labelPkgName : String
  resourceID : InfluxID
  resourcePkgName : String
  resourceType : ResourceType
deriving DecidableEq, Repr

/-- Embeds `stateCoordinator` (service.go:3063-3076).  Each per-kind Go map
`map[string]*stateX` becomes an association list keyed by pkg-name. -/
structure stateCoordinator where
  mBuckets : List (String × stateBucket) := []
  mChecks : List (String × stateCheck) := []
  mDashboards : List (String × stateDashboard) := []
  mEndpoints : List (String × stateEndpoint) := []
  mLabels : List (String × stateLabel) := []
  mRules : List (String × stateRule) := []
  mTasks : List (String × stateTask) := []
  mTelegrafs : List (String × stateTelegraf) := []
  mVariables : List (String × stateVariable) := []
  labelMappings : List stateLabelMapping := []
  labelMappingsToRemove : List stateLabelMappingForRemoval := []
deriving DecidableEq, Repr

/-- The parsed package, reduced to the per-kind object lists service.go
consumes through `pkg.buckets()`, `pkg.checks()`, ... (the parser lives
outside the included sources; spec §3: a Package is an ordered set of
objects, unique per (kind family, pkg-name)). -/
structure Pkg where
  buckets : List bucket := []
  checks : List check := []
  dashboards : List dashboard := []
  notificationEndpoints : List notificationEndpoint := []
  labels : List label := []
  notificationRules : List notificationRule := []
  tasks : List task := []
  telegrafs : List telegraf := []
  variables' : List variable' := []
deriving DecidableEq, Repr

/-- Embeds `newStateCoordinator` (service.go:3078-3147): every package
object becomes a state record with status NEW, inserted under its
pkg-name. -/
def newStateCoordinator (pkg : Pkg) : stateCoordinator where
  mBuckets := pkg.buckets.foldl
    (fun m b => mapPut m b.pkgName { stateStatus := StateStatusNew, parserBkt := b }) []
  mChecks := pkg.checks.foldl
    (fun m c => mapPut m c.pkgName { stateStatus := StateStatusNew, parserCheck := c }) []
  mDashboards := pkg.dashboards.foldl
    (fun m d => mapPut m d.pkgName { stateStatus := StateStatusNew, parserDash := d }) []
  mEndpoints := pkg.notificationEndpoints.foldl
    (fun m e => mapPut m e.pkgName { stateStatus := StateStatusNew, parserEndpoint := e }) []
  mLabels := pkg.labels.foldl
    (fun m l => mapPut m l.pkgName { stateStatus := StateStatusNew, parserLabel := l }) []
  mRules := pkg.notificationRules.foldl
    (fun m r => mapPut m r.pkgName { stateStatus := StateStatusNew, parserRule := r }) []
  mTasks := pkg.tasks.foldl
    (fun m t => mapPut m t.pkgName { stateStatus := StateStatusNew, parserTask := t }) []
  mTelegrafs := pkg.telegrafs.foldl
    (fun m t => mapPut m t.pkgName { stateStatus := StateStatusNew, parserTelegraf := t }) []
  mVariables := pkg.variables'.foldl
    (fun m v => mapPut m v.pkgName { stateStatus := StateStatusNew, parserVar := v }) []

/-- Embeds the presence half of `stateCoordinator.get` used by `Contains`
(service.go:3506-3541, 3561-3564).  Go's `Kind` is a string type; values
outside the closed set hit the switch default (absent) but are rejected by
package validation and never stored in a stack, so `Kind` here is the
closed inductive and every case is covered. -/
def stateCoordinator.Contains (s : stateCoordinator) (k : Kind) (pkgName : String) : Bool :=
  match k with
  | .bucket => (mapGet s.mBuckets pkgName).isSome
  | .check | .checkDeadman | .checkThreshold => (mapGet s.mChecks pkgName).isSome
  | .dashboard => (mapGet s.mDashboards pkgName).isSome
  | .label => (mapGet s.mLabels pkgName).isSome
  | .notifEndpoint | .notifEndpointHTTP | .notifEndpointPagerDuty
  | .notifEndpointSlack => (mapGet s.mEndpoints pkgName).isSome
  | .notifRule => (mapGet s.mRules pkgName).isSome
  | .task => (mapGet s.mTasks pkgName).isSome
  | .telegraf => (mapGet s.mTelegrafs pkgName).isSome
  | .variable' => (mapGet s.mVariables pkgName).isSome

/-- Embeds `setObjectID` together with `getObjectIDSetter`
(service.go:3566-3573, 3645-3707): when the record exists, set its `id`
field to the given id and its status to EXISTS; otherwise do nothing. -/
def stateCoordinator.setObjectID (s : stateCoordinator) (k : Kind) (pkgName : String)
    (id : InfluxID) : stateCoordinator :=
  match k with
  | .bucket =>
      if (mapGet s.mBuckets pkgName).isSome then
        { s with mBuckets := mapUpd s.mBuckets pkgName (fun r => { r with id := id, stateStatus := StateStatusExists }) }
      else s
  | .check | .checkDeadman | .checkThreshold =>
      if (mapGet s.mChecks pkgName).isSome then
        { s with mChecks := mapUpd s.mChecks pkgName (fun r => { r with id := id, stateStatus := StateStatusExists }) }
      else s
  | .dashboard =>
      if (mapGet s.mDashboards pkgName).isSome then
        { s with mDashboards := mapUpd s.mDashboards pkgName (fun r => { r with id := id, stateStatus := StateStatusExists }) }
      else s
  | .label =>
      if (mapGet s.mLabels pkgName).isSome then
        { s with mLabels := mapUpd s.mLabels pkgName (fun r => { r with id := id, stateStatus := StateStatusExists }) }
      else s
  | .notifEndpoint | .notifEndpointHTTP | .notifEndpointPagerDuty
  | .notifEndpointSlack =>
      if (mapGet s.mEndpoints pkgName).isSome then
        { s with mEndpoints := mapUpd s.mEndpoints pkgName (fun r => { r with id := id, stateStatus := StateStatusExists }) }
      else s
  | .notifRule =>
      if (mapGet s.mRules pkgName).isSome then
        { s with mRules := mapUpd s.mRules pkgName (fun r => { r with id := id, stateStatus := StateStatusExists }) }
      else s
  | .task =>
      if (mapGet s.mTasks pkgName).isSome then
        { s with mTasks := mapUpd s.mTasks pkgName (fun r => { r with id := id, stateStatus := StateStatusExists }) }
      else s
  | .telegraf =>
      if (mapGet s.mTelegrafs pkgName).isSome then
        { s with mTelegrafs := mapUpd s.mTelegrafs pkgName (fun r => { r with id := id, stateStatus := StateStatusExists }) }
      else s
  | .variable' =>
      if (mapGet s.mVariables pkgName).isSome then
        { s with mVariables := mapUpd s.mVariables pkgName (fun r => { r with id := id, stateStatus := StateStatusExists }) }
      else s

/-- Embeds `addObjectForRemoval` (service.go:3579-3643): overwrite or insert
a synthetic REMOVE record that carries the given id and an identity whose
only content is the pkg-name. -/
def stateCoordinator.addObjectForRemoval (s : stateCoordinator) (k : Kind) (pkgName : String)
    (id : InfluxID) : stateCoordinator :=
  match k with
  | .bucket =>
      { s with mBuckets := mapPut s.mBuckets pkgName { id := id, stateStatus := StateStatusRemove, parserBkt := { pkgName := pkgName, name := pkgName } } }
  | .check | .checkDeadman | .checkThreshold =>
      { s with mChecks := mapPut s.mChecks pkgName { id := id, stateStatus := StateStatusRemove, parserCheck := { pkgName := pkgName, name := pkgName } } }
  | .dashboard =>
      { s with mDashboards := mapPut s.mDashboards pkgName { id := id, stateStatus := StateStatusRemove, parserDash := { pkgName := pkgName, name := pkgName } } }
  | .label =>
      { s with mLabels := mapPut s.mLabels pkgName { id := id, stateStatus := StateStatusRemove, parserLabel := { pkgName := pkgName, name := pkgName } } }
  | .notifEndpoint | .notifEndpointHTTP | .notifEndpointPagerDuty
  | .notifEndpointSlack =>
      { s with mEndpoints := mapPut s.mEndpoints pkgName { id := id, stateStatus := StateStatusRemove, parserEndpoint := { pkgName := pkgName, name := pkgName } } }
  | .notifRule =>
      { s with mRules := mapPut s.mRules pkgName { id := id, stateStatus := StateStatusRemove, parserRule := { pkgName := pkgName, name := pkgName } } }
  | .task =>
      { s with mTasks := mapPut s.mTasks pkgName { id := id, stateStatus := StateStatusRemove, parserTask := { pkgName := pkgName, name := pkgName } } }
  | .telegraf =>
      { s with mTelegrafs := mapPut s.mTelegrafs pkgName { id := id, stateStatus := StateStatusRemove, parserTelegraf := { pkgName := pkgName, name := pkgName } } }
  | .variable' =>
      { s with mVariables := mapPut s.mVariables pkgName { id := id, stateStatus := StateStatusRemove, parserVar := { pkgName := pkgName, name := pkgName } } }

/-- Embeds `APIVersion` (service.go:21). -/
def APIVersion : String := "influxdata.com/v2alpha1"

/-- Embeds `StackResourceAssociation` (service.go:50-53).  Go's `Kind` is a
string; the zero association produced by `stateRule.endpointAssociation`
for an unbound rule carries the empty kind, modelled as `none`. -/
structure StackResourceAssociation where
  kind : Option Kind
  pkgName : String
deriving DecidableEq, Repr

/-- Embeds `StackResource` (service.go:41-47). -/
structure StackResource where
  apiVersion : String
  id : InfluxID
  kind : Kind
  pkgName : String
  associations : List StackResourceAssociation := []
deriving DecidableEq, Repr

/-- Time stamps, embedded as naturals; `time.Now()` is threaded in as an
explicit parameter wherever the code reads the clock. -/
abbrev Time := Nat

/-- Embeds `Stack` (service.go:28-38); `influxdb.CRUDLog` contributes the
createdAt/updatedAt fields. -/
structure Stack where
  id : InfluxID := 0
  orgID : InfluxID := 0
  name : String := ""
  description : String := ""
  urls : List String := []
  resources : List StackResource := []
  createdAt : Time := 0
  updatedAt : Time := 0
deriving DecidableEq, Repr

/-- The loop body of `reconcileStackResources` (service.go:3438-3444): when
the state lacks the (kind, pkg-name), inject a synthetic removal; otherwise
attach the stack id (and promote to EXISTS). -/
def reconcileStep (st : stateCoordinator) (r : StackResource) : stateCoordinator :=
  if !(st.Contains r.kind r.pkgName) then st.addObjectForRemoval r.kind r.pkgName r.id
  else st.setObjectID r.kind r.pkgName r.id

/-- Embeds `reconcileStackResources` (service.go:3437-3445). -/
def stateCoordinator.reconcileStackResources (s : stateCoordinator)
    (stackResources : List StackResource) : stateCoordinator :=
  stackResources.foldl reconcileStep s

/-- The observable identity of a stored state record: its `id` field, its
status, its parser pkg-name, and whether `existing` is attached.  Used to
state what reconciliation does to each record. -/
structure RecordView where
  rid : InfluxID
  status : StateStatus
  parserPkg : String
  hasExisting : Bool
deriving DecidableEq, Repr

/-- Reads the record stored under a (kind, pkg-name) as a `RecordView`,
dispatching to the per-family map exactly as `stateCoordinator.get` does. -/
def stateCoordinator.identView (s : stateCoordinator) (k : Kind) (pkgName : String) :
    Option RecordView :=
  match k with
  | .bucket => (mapGet s.mBuckets pkgName).map
      (fun r => ⟨r.id, r.stateStatus, r.parserBkt.pkgName, r.existing.isSome⟩)
  | .check | .checkDeadman | .checkThreshold => (mapGet s.mChecks pkgName).map
      (fun r => ⟨r.id, r.stateStatus, r.parserCheck.pkgName, r.existing.isSome⟩)
  | .dashboard => (mapGet s.mDashboards pkgName).map
      (fun r => ⟨r.id, r.stateStatus, r.parserDash.pkgName, r.existing.isSome⟩)
  | .label => (mapGet s.mLabels pkgName).map
      (fun r => ⟨r.id, r.stateStatus, r.parserLabel.pkgName, r.existing.isSome⟩)
  | .notifEndpoint | .notifEndpointHTTP | .notifEndpointPagerDuty
  | .notifEndpointSlack => (mapGet s.mEndpoints pkgName).map
      (fun r => ⟨r.id, r.stateStatus, r.parserEndpoint.pkgName, r.existing.isSome⟩)
  | .notifRule => (mapGet s.mRules pkgName).map
      (fun r => ⟨r.id, r.stateStatus, r.parserRule.pkgName, r.existing.isSome⟩)
  | .task => (mapGet s.mTasks pkgName).map
      (fun r => ⟨r.id, r.stateStatus, r.parserTask.pkgName, r.existing.isSome⟩)
  | .telegraf => (mapGet s.mTelegrafs pkgName).map
      (fun r => ⟨r.id, r.stateStatus, r.parserTelegraf.pkgName, r.existing.isSome⟩)
  | .variable' => (mapGet s.mVariables pkgName).map
      (fun r => ⟨r.id, r.stateStatus, r.parserVar.pkgName, r.existing.isSome⟩)

/-- Embeds `stateCoordinator.labelAssociations` (service.go:3543-3559): look
the record up, and when it implements the `labelAssociater` interface map its
parser labels through `mLabels`.  `stateLabel` does not implement the
interface, so the label case yields nil.  A missing record yields a nil
interface value, for which the type assertion fails, hence nil. -/
def stateCoordinator.labelAssociations (s : stateCoordinator) (k : Kind) (pkgName : String) :
    List (Option stateLabel) :=
  match k with
  | .bucket =>
      match mapGet s.mBuckets pkgName with
      | some r => r.parserBkt.labels.map (fun lp => mapGet s.mLabels lp)
      | none => []
  | .check | .checkDeadman | .checkThreshold =>
      match mapGet s.mChecks pkgName with
      | some r => r.parserCheck.labels.map (fun lp => mapGet s.mLabels lp)
      | none => []
  | .dashboard =>
      match mapGet s.mDashboards pkgName with
      | some r => r.parserDash.labels.map (fun lp => mapGet s.mLabels lp)
      | none => []
  | .label => []
  | .notifEndpoint | .notifEndpointHTTP | .notifEndpointPagerDuty
  | .notifEndpointSlack =>
      match mapGet s.mEndpoints pkgName with
      | some r => r.parserEndpoint.labels.map (fun lp => mapGet s.mLabels lp)
      | none => []
  | .notifRule =>
      match mapGet s.mRules pkgName with
      | some r => r.parserRule.labels.map (fun lp => mapGet s.mLabels lp)
      | none => []
  | .task =>
      match mapGet s.mTasks pkgName with
      | some r => r.parserTask.labels.map (fun lp => mapGet s.mLabels lp)
      | none => []
  | .telegraf =>
      match mapGet s.mTelegrafs pkgName with
      | some r => r.parserTelegraf.labels.map (fun lp => mapGet s.mLabels lp)
      | none => []
  | .variable' =>
      match mapGet s.mVariables pkgName with
      | some r => r.parserVar.labels.map (fun lp => mapGet s.mLabels lp)
      | none => []

/-- Embeds `stateLabelsToStackAssociations` (service.go:2828-2837).  A nil
entry makes the Go loop panic when dereferencing `l.parserLabel`; it is
modelled as an empty pkg-name (no state reachable by the claims proved here
produces a nil entry). -/
def stateLabelsToStackAssociations (stateLabels : List (Option stateLabel)) :
    List StackResourceAssociation :=
  stateLabels.map (fun l =>
    { kind := some Kind.label
    , pkgName := (l.map (fun sl => sl.parserLabel.pkgName)).getD "" })

/-- Embeds `stateRule.endpointAssociation` (service.go:4172-4180); for an
unbound rule the Go code returns the zero association (empty kind). -/
def stateRule.endpointAssociation (r : stateRule) : StackResourceAssociation :=
  match r.associatedEndpoint with
  | none => { kind := none, pkgName := "" }
  | some _ => { kind := some Kind.notifEndpoint, pkgName := r.endpointPkgName }

/-- Embeds the `stackResources` accumulation of `updateStackAfterSuccess`
(service.go:2534-2652): per kind (in source order: buckets, checks,
dashboards, endpoints, labels, rules, tasks, telegrafs, variables), every
record whose status is not REMOVE contributes one `StackResource` carrying
its current `ID()` and its current label associations; the rule block also
appends the rule's endpoint association. -/
def updateStackAfterSuccessResources (state : stateCoordinator) : List StackResource :=
  ((state.mBuckets.map Prod.snd).filter (fun b => !IsRemoval b.stateStatus)).map (fun b =>
    { apiVersion := APIVersion, id := b.ID, kind := Kind.bucket, pkgName := b.parserBkt.pkgName
    , associations := stateLabelsToStackAssociations (state.labelAssociations Kind.bucket b.parserBkt.pkgName) })
  ++ ((state.mChecks.map Prod.snd).filter (fun c => !IsRemoval c.stateStatus)).map (fun c =>
    { apiVersion := APIVersion, id := c.ID, kind := Kind.check, pkgName := c.parserCheck.pkgName
    , associations := stateLabelsToStackAssociations (state.labelAssociations Kind.check c.parserCheck.pkgName) })
  ++ ((state.mDashboards.map Prod.snd).filter (fun d => !IsRemoval d.stateStatus)).map (fun d =>
    { apiVersion := APIVersion, id := d.ID, kind := Kind.dashboard, pkgName := d.parserDash.pkgName
    , associations := stateLabelsToStackAssociations (state.labelAssociations Kind.dashboard d.parserDash.pkgName) })
  ++ ((state.mEndpoints.map Prod.snd).filter (fun e => !IsRemoval e.stateStatus)).map (fun e =>
    { apiVersion := APIVersion, id := e.ID, kind := Kind.notifEndpoint, pkgName := e.parserEndpoint.pkgName
    , associations := stateLabelsToStackAssociations (state.labelAssociations Kind.notifEndpoint e.parserEndpoint.pkgName) })
  ++ ((state.mLabels.map Prod.snd).filter (fun l => !IsRemoval l.stateStatus)).map (fun l =>
    { apiVersion := APIVersion, id := l.ID, kind := Kind.label, pkgName := l.parserLabel.pkgName })
  ++ ((state.mRules.map Prod.snd).filter (fun r => !IsRemoval r.stateStatus)).map (fun r =>
    { apiVersion := APIVersion, id := r.ID, kind := Kind.notifRule, pkgName := r.parserRule.pkgName
    , associations := stateLabelsToStackAssociations (state.labelAssociations Kind.notifRule r.parserRule.pkgName) ++ [r.endpointAssociation] })
  ++ ((state.mTasks.map Prod.snd).filter (fun t => !IsRemoval t.stateStatus)).map (fun t =>
    { apiVersion := APIVersion, id := t.ID, kind := Kind.task, pkgName := t.parserTask.pkgName
    , associations := stateLabelsToStackAssociations (state.labelAssociations Kind.task t.parserTask.pkgName) })
  ++ ((state.mTelegrafs.map Prod.snd).filter (fun t => !IsRemoval t.stateStatus)).map (fun t =>
    { apiVersion := APIVersion, id := t.ID, kind := Kind.telegraf, pkgName := t.parserTelegraf.pkgName
    , associations := stateLabelsToStackAssociations (state.labelAssociations Kind.telegraf t.parserTelegraf.pkgName) })
  ++ ((state.mVariables.map Prod.snd).filter (fun v => !IsRemoval v.stateStatus)).map (fun v =>
    { apiVersion := APIVersion, id := v.ID, kind := Kind.variable', pkgName := v.parserVar.pkgName
    , associations := stateLabelsToStackAssociations (state.labelAssociations Kind.variable' v.parserVar.pkgName) })

/-- Embeds `Service.updateStackAfterSuccess` (service.go:2528-2657) minus the
store round-trip: the stack read by id comes in as `stack`, `time.Now()` as
`now`; the function rewrites `resources` and stamps `updatedAt`. -/
def updateStackAfterSuccess (state : stateCoordinator) (stack : Stack) (now : Time) : Stack :=
  { stack with resources := updateStackAfterSuccessResources state, updatedAt := now }

/-- Spec-side view of one state record for the stack-rewrite claim: its kind,
pkg-name, current platform `ID()`, status, and current associations. -/
structure RecordSummary where
  kind : Kind
  pkgName : String
  rid : InfluxID
  status : StateStatus
  assocs : List StackResourceAssociation
deriving DecidableEq, Repr

/-- All state records of the coordinator as `RecordSummary`s, per kind in the
same source order `updateStackAfterSuccess` walks the maps. -/
def stateCoordinator.allRecordSummaries (state : stateCoordinator) : List RecordSummary :=
  (state.mBuckets.map Prod.snd).map (fun b =>
    ⟨Kind.bucket, b.parserBkt.pkgName, b.ID, b.stateStatus
    , stateLabelsToStackAssociations (state.labelAssociations Kind.bucket b.parserBkt.pkgName)⟩)
  ++ (state.mChecks.map Prod.snd).map (fun c =>
    ⟨Kind.check, c.parserCheck.pkgName, c.ID, c.stateStatus
    , stateLabelsToStackAssociations (state.labelAssociations Kind.check c.parserCheck.pkgName)⟩)
  ++ (state.mDashboards.map Prod.snd).map (fun d =>
    ⟨Kind.dashboard, d.parserDash.pkgName, d.ID, d.stateStatus
    , stateLabelsToStackAssociations (state.labelAssociations Kind.dashboard d.parserDash.pkgName)⟩)
  ++ (state.mEndpoints.map Prod.snd).map (fun e =>
    ⟨Kind.notifEndpoint, e.parserEndpoint.pkgName, e.ID, e.stateStatus
    , stateLabelsToStackAssociations (state.labelAssociations Kind.notifEndpoint e.parserEndpoint.pkgName)⟩)
  ++ (state.mLabels.map Prod.snd).map (fun l =>
    ⟨Kind.label, l.parserLabel.pkgName, l.ID, l.stateStatus, []⟩)
  ++ (state.mRules.map Prod.snd).map (fun r =>
    ⟨Kind.notifRule, r.parserRule.pkgName, r.ID, r.stateStatus
    , stateLabelsToStackAssociations (state.labelAssociations Kind.notifRule r.parserRule.pkgName) ++ [r.endpointAssociation]⟩)
  ++ (state.mTasks.map Prod.snd).map (fun t =>
    ⟨Kind.task, t.parserTask.pkgName, t.ID, t.stateStatus
    , stateLabelsToStackAssociations (state.labelAssociations Kind.task t.parserTask.pkgName)⟩)
  ++ (state.mTelegrafs.map Prod.snd).map (fun t =>
    ⟨Kind.telegraf, t.parserTelegraf.pkgName, t.ID, t.stateStatus
    , stateLabelsToStackAssociations (state.labelAssociations Kind.telegraf t.parserTelegraf.pkgName)⟩)
  ++ (state.mVariables.map Prod.snd).map (fun v =>
    ⟨Kind.variable', v.parserVar.pkgName, v.ID, v.stateStatus
    , stateLabelsToStackAssociations (state.labelAssociations Kind.variable' v.parserVar.pkgName)⟩)

/-- Whether the package holds an object of the kind family under the
pkg-name: the spec-level reading of `Contains` on a freshly built state. -/
def Pkg.contains (pkg : Pkg) (k : Kind) (p : String) : Bool :=
  match k.family with
  | .bucket => pkg.buckets.any (fun b => b.pkgName == p)
  | .check => pkg.checks.any (fun c => c.pkgName == p)
  | .dashboard => pkg.dashboards.any (fun d => d.pkgName == p)
  | .label => pkg.labels.any (fun l => l.pkgName == p)
  | .endpoint => pkg.notificationEndpoints.any (fun e => e.pkgName == p)
  | .rule => pkg.notificationRules.any (fun r => r.pkgName == p)
  | .task => pkg.tasks.any (fun t => t.pkgName == p)
  | .telegraf => pkg.telegrafs.any (fun t => t.pkgName == p)
  | .variable' => pkg.variables'.any (fun v => v.pkgName == p)

/-! ### Dry-run (service.go:654-912)

Each resource service is an external contract (spec §4.A), modelled as a
record of lookup functions.  Dry-run discards lookup errors
(`existing, _ = svc.Find...`), so a lookup yields the entity or nothing. -/

/-- Bucket service surface used by `dryRunBuckets` (service.go:716-730). -/
structure BucketService where
  findBucketByID : InfluxID → Option InfluxBucket
  findBucketByName : InfluxID → String → Option InfluxBucket

/-- Embeds the loop body of `dryRunBuckets` (service.go:716-730). -/
def dryRunBucketRecord (svc : BucketService) (orgID : InfluxID) (b : stateBucket) : stateBucket :=
  let b := { b with orgID := orgID }
  let existing := if b.ID != 0 then svc.findBucketByID b.ID
    else svc.findBucketByName orgID b.parserBkt.name
  let status := if IsNew b.stateStatus && existing.isSome then StateStatusExists else b.stateStatus
  { b with stateStatus := status, existing := existing }

/-- Embeds `dryRunBuckets` (service.go:716-730). -/
def dryRunBuckets (svc : BucketService) (orgID : InfluxID)
    (bkts : List (String × stateBucket)) : List (String × stateBucket) :=
  bkts.map (fun kv => (kv.1, dryRunBucketRecord svc orgID kv.2))

/-- Check service surface used by `dryRunChecks` (service.go:732-751);
`findCheck` is `FindCheck` with an org + name filter. -/
structure CheckService where
  findCheckByID : InfluxID → Option InfluxCheck
  findCheck : InfluxID → String → Option InfluxCheck

/-- Embeds the loop body of `dryRunChecks` (service.go:732-751). -/
def dryRunCheckRecord (svc : CheckService) (orgID : InfluxID) (c : stateCheck) : stateCheck :=
  let c := { c with orgID := orgID }
  let existing := if c.ID != 0 then svc.findCheckByID c.ID
    else svc.findCheck orgID c.parserCheck.name
  let status := if IsNew c.stateStatus && existing.isSome then StateStatusExists else c.stateStatus
  { c with stateStatus := status, existing := existing }

/-- Embeds `dryRunChecks` (service.go:732-751). -/
def dryRunChecks (svc : CheckService) (orgID : InfluxID)
    (checks : List (String × stateCheck)) : List (String × stateCheck) :=
  checks.map (fun kv => (kv.1, dryRunCheckRecord svc orgID kv.2))

/-- Dashboard service surface used by `dryRunDashboards` (service.go:753-765):
only a lookup by id — there is no name-based fallback in the code. -/
structure DashboardService where
  findDashboardByID : InfluxID → Option InfluxDashboard

/-- Embeds the loop body of `dryRunDashboards` (service.go:753-765): the
entity is fetched only when the record has a non-zero id. -/
def dryRunDashboardRecord (svc : DashboardService) (orgID : InfluxID)
    (d : stateDashboard) : stateDashboard :=
  let d := { d with orgID := orgID }
  let existing := if d.ID != 0 then svc.findDashboardByID d.ID else none
  let status := if IsNew d.stateStatus && existing.isSome then StateStatusExists else d.stateStatus
  { d with stateStatus := status, existing := existing }

/-- Embeds `dryRunDashboards` (service.go:753-765). -/
def dryRunDashboards (svc : DashboardService) (orgID : InfluxID)
    (dashs : List (String × stateDashboard)) : List (String × stateDashboard) :=
  dashs.map (fun kv => (kv.1, dryRunDashboardRecord svc orgID kv.2))

/-- Label service surface used by `findLabel` (service.go:2776-2792);
`findLabels` is `FindLabels` with an org + name filter (limit 1 becomes
taking the head). -/
structure LabelService where
  findLabelByID : InfluxID → Option InfluxLabel
  findLabels : InfluxID → String → List InfluxLabel

/-- Embeds `Service.findLabel` (service.go:2776-2792); the empty-result error
return surfaces as `none` at the dry-run call site. -/
def findLabel (svc : LabelService) (orgID : InfluxID) (l : stateLabel) : Option InfluxLabel :=
  if l.ID != 0 then svc.findLabelByID l.ID
  else (svc.findLabels orgID l.parserLabel.name).head?

/-- Embeds the loop body of `dryRunLabels` (service.go:767-776). -/
def dryRunLabelRecord (svc : LabelService) (orgID : InfluxID) (l : stateLabel) : stateLabel :=
  let l := { l with orgID := orgID }
  let existing := findLabel svc orgID l
  let status := if IsNew l.stateStatus && existing.isSome then StateStatusExists else l.stateStatus
  { l with stateStatus := status, existing := existing }

/-- Embeds `dryRunLabels` (service.go:767-776). -/
def dryRunLabels (svc : LabelService) (orgID : InfluxID)
    (labels : List (String × stateLabel)) : List (String × stateLabel) :=
  labels.map (fun kv => (kv.1, dryRunLabelRecord svc orgID kv.2))

/-- Endpoint service surface used by `dryRunNotificationEndpoints`
(service.go:778-813): one bulk list by org. -/
structure EndpointService where
  findNotificationEndpoints : InfluxID → List InfluxEndpoint

/-- Embeds the body of `dryRunNotificationEndpoints` (service.go:778-813):
index the bulk result by name and id (later entries overwrite, like the Go
map build), then for each record try the id index first and fall back to the
name index. -/
def dryRunEndpointRecord (existingEndpoints : List InfluxEndpoint) (e : stateEndpoint) :
    stateEndpoint :=
  let mExistingByName := existingEndpoints.foldl (fun m x => mapPut m x.name x) []
  let mExistingByID := existingEndpoints.foldl (fun m x => mapPut m x.id x) []
  let existing :=
    match mapGet mExistingByID e.ID with
    | some x => some x
    | none => mapGet mExistingByName e.parserEndpoint.name
  let status := if IsNew e.stateStatus && existing.isSome then StateStatusExists else e.stateStatus
  { e with stateStatus := status, existing := existing }

/-- Embeds `dryRunNotificationEndpoints` (service.go:778-813). -/
def dryRunNotificationEndpoints (svc : EndpointService) (orgID : InfluxID)
    (endpoints : List (String × stateEndpoint)) : List (String × stateEndpoint) :=
  let existingEndpoints := svc.findNotificationEndpoints orgID
  endpoints.map (fun kv => (kv.1, dryRunEndpointRecord existingEndpoints kv.2))

/-- Task service surface used by `dryRunTasks` (service.go:862-874): only a
lookup by id — there is no name-based fallback in the code. -/
structure TaskService where
  findTaskByID : InfluxID → Option InfluxTask

/-- Embeds the loop body of `dryRunTasks` (service.go:862-874). -/
def dryRunTaskRecord (svc : TaskService) (orgID : InfluxID) (t : stateTask) : stateTask :=
  let t := { t with orgID := orgID }
  let existing := if t.ID != 0 then svc.findTaskByID t.ID else none
  let status := if IsNew t.stateStatus && existing.isSome then StateStatusExists else t.stateStatus
  { t with stateStatus := status, existing := existing }

/-- Embeds `dryRunTasks` (service.go:862-874). -/
def dryRunTasks (svc : TaskService) (orgID : InfluxID)
    (tasks : List (String × stateTask)) : List (String × stateTask) :=
  tasks.map (fun kv => (kv.1, dryRunTaskRecord svc orgID kv.2))

/-- Telegraf service surface used by `dryRunTelegrafConfigs`
(service.go:876-888): only a lookup by id. -/
structure TelegrafService where
  findTelegrafConfigByID : InfluxID → Option InfluxTelegraf

/-- Embeds the loop body of `dryRunTelegrafConfigs` (service.go:876-888). -/
def dryRunTelegrafRecord (svc : TelegrafService) (orgID : InfluxID)
    (t : stateTelegraf) : stateTelegraf :=
  let t := { t with orgID := orgID }
  let existing := if t.ID != 0 then svc.findTelegrafConfigByID t.ID else none
  let status := if IsNew t.stateStatus && existing.isSome then StateStatusExists else t.stateStatus
  { t with stateStatus := status, existing := existing }

/-- Embeds `dryRunTelegrafConfigs` (service.go:876-888). -/
def dryRunTelegrafConfigs (svc : TelegrafService) (orgID : InfluxID)
    (teles : List (String × stateTelegraf)) : List (String × stateTelegraf) :=
  teles.map (fun kv => (kv.1, dryRunTelegrafRecord svc orgID kv.2))

/-- Variable service surface used by `dryRunVariables` (service.go:890-912);
`findVariables` models `getAllPlatformVariables` with its pagination
collapsed into one org-wide list. -/
structure VariableService where
  findVariables : InfluxID → List InfluxVariable

/-- Embeds the per-record part of `dryRunVariables` (service.go:890-912):
index the bulk result by id and by name (later entries overwrite), then
choose the id index when the record has a non-zero id, the name index
otherwise. -/
def dryRunVariableRecord (existingVars : List InfluxVariable) (v : stateVariable) :
    stateVariable :=
  let mIDs := existingVars.foldl (fun m x => mapPut m x.id x) []
  let mNames := existingVars.foldl (fun m x => mapPut m x.name x) []
  let existing := if v.ID != 0 then mapGet mIDs v.ID else mapGet mNames v.parserVar.name
  let status := if IsNew v.stateStatus && existing.isSome then StateStatusExists else v.stateStatus
  { v with stateStatus := status, existing := existing }

/-- Embeds `dryRunVariables` (service.go:890-912). -/
def dryRunVariables (svc : VariableService) (orgID : InfluxID)
    (vars : List (String × stateVariable)) : List (String × stateVariable) :=
  let existingVars := svc.findVariables orgID
  vars.map (fun kv => (kv.1, dryRunVariableRecord existingVars kv.2))

/-- Embeds `influxdb.Error` with the fields service.go sets. -/
structure InfluxError where
  code : String
  msg : String
deriving DecidableEq, Repr

/-- Embeds `influxdb.EUnprocessableEntity` (declared outside the included
sources; spec §7 names the error kind). -/
def EUnprocessableEntity : String := "unprocessable entity"

/-- Rule service surface used by `dryRunNotificationRules`
(service.go:815-842): only a lookup by id. -/
structure RuleService where
  findNotificationRuleByID : InfluxID → Option InfluxRule

/-- Embeds the first loop of `dryRunNotificationRules` (service.go:816-823):
attach `existing` by id (only when the id is non-zero). -/
def dryRunRuleRecord (svc : RuleService) (orgID : InfluxID) (r : stateRule) : stateRule :=
  let r := { r with orgID := orgID }
  let existing := if r.ID != 0 then svc.findNotificationRuleByID r.ID else none
  { r with existing := existing }

/-- Embeds the second loop of `dryRunNotificationRules` (service.go:825-839):
for each rule with no associated endpoint, look its endpoint pkg-name up in
the endpoint map; fail with `EUnprocessableEntity` when the rule is not being
removed and the endpoint is missing, otherwise bind the (possibly absent)
endpoint. -/
def bindRuleEndpoints (endpoints : List (String × stateEndpoint)) :
    List (String × stateRule) → Except InfluxError (List (String × stateRule))
  | [] => .ok []
  | kv :: rest =>
      let r := kv.2
      if r.associatedEndpoint.isSome then
        (bindRuleEndpoints endpoints rest).map (fun out => kv :: out)
      else
        let e := mapGet endpoints r.parserRule.endpointPkgName
        if !IsRemoval r.stateStatus && e.isNone then
          .error
            { code := EUnprocessableEntity
            , msg := "failed to find notification endpoint " ++ r.parserRule.endpointName ++
                " dependency for notification rule " ++ r.parserRule.pkgName }
        else
          (bindRuleEndpoints endpoints rest).map
            (fun out => (kv.1, { r with associatedEndpoint := e }) :: out)

/-- Embeds `dryRunNotificationRules` (service.go:815-842). -/
def dryRunNotificationRules (svc : RuleService) (orgID : InfluxID)
    (rules : List (String × stateRule)) (endpoints : List (String × stateEndpoint)) :
    Except InfluxError (List (String × stateRule)) :=
  bindRuleEndpoints endpoints (rules.map (fun kv => (kv.1, dryRunRuleRecord svc orgID kv.2)))

/-! ### Apply / rollback coordinator (service.go:2855-2931, 1121-1226) -/

/-- Embeds `applyErrBody`. -/
structure applyErrBody where
  name : String
  msg : String
deriving DecidableEq, Repr

/-- Embeds `rollbacker` (service.go:2871-2874); `fn` returns the error of
the compensation (`none` = success). -/
structure rollbacker where
  resource : String := ""
  fn : InfluxID → Option String

/-- Embeds `creater` (service.go:2876-2879); `fn` takes the entry index and
the org and user ids (the context is dropped). -/
structure creater where
  entries : Nat := 0
  fn : Nat → InfluxID → InfluxID → Option applyErrBody

/-- Embeds `applier` (service.go:2866-2869). -/
structure applier where
  crt : creater
  rb : rollbacker

/-- Embeds `rollbackCoordinator` (service.go:2882-2886); the semaphore only
bounds concurrency and has no sequential observable effect. -/
structure rollbackCoordinator where
  rollbacks : List rollbacker := []

/-- Embeds `runTilEnd` (service.go:2888-2919): every applier's rollbacker is
appended to the coordinator's rollback list (before its creater entries run),
all creater entries run (concurrently in Go, bounded by the semaphore; their
error messages are collected unordered — here sequentially), and the
collected (resource, error) pairs come back (`errStream.close` yields a
non-nil error exactly when at least one message was collected). -/
def rollbackCoordinator.runTilEnd (r : rollbackCoordinator) (orgID userID : InfluxID)
    (appliers : List applier) : rollbackCoordinator × List (String × applyErrBody) :=
  ({ rollbacks := r.rollbacks ++ appliers.map (fun a => a.rb) }
  , appliers.foldl
      (fun acc a =>
        acc ++ (List.range a.crt.entries).filterMap
          (fun i => (a.crt.fn i orgID userID).map (fun e => (a.rb.resource, e))))
      [])

/-- Embeds `rollback` (service.go:2921-2931): when the apply error is nil do
nothing; otherwise walk the rollbacks slice front to back, invoke each
compensation, log a failure and continue.  The first component is the
invocation order (each invoked rollbacker's resource), the second the log
lines. -/
def rollbackCoordinator.rollback (r : rollbackCoordinator) (err : Option String)
    (orgID : InfluxID) : List String × List String :=
  match err with
  | none => ([], [])
  | some _ =>
      r.rollbacks.foldl
        (fun acc rb =>
          match rb.fn orgID with
          | some e => (acc.1 ++ [rb.resource], acc.2 ++ ["failed to delete " ++ rb.resource ++ ": " ++ e])
          | none => (acc.1 ++ [rb.resource], acc.2))
        ([], [])

/-! ### Per-resource apply actions and the shouldApply gate
(service.go:1228-1270, 1303-1339, 1341-1448, 1581-1623, 1656-1679,
2279-2319, 2354-2385)

The forward service calls are represented as an operation trace (their
success path); what matters for the claims is which records trigger calls at
all and of which kind. -/

/-- One resource-service call performed by an apply action. -/
inductive ResourceOp where
  | createBucket (pkgName : String)
  | updateBucket (id : InfluxID)
  | deleteBucket (id : InfluxID)
  | createCheck (pkgName : String)
  | updateCheck (id : InfluxID)
  | deleteCheck (id : InfluxID)
  | createLabel (pkgName : String)
  | updateLabel (id : InfluxID)
  | deleteLabel (id : InfluxID)
  | createVariable (pkgName : String)
  | updateVariable (id : InfluxID)
  | deleteVariable (id : InfluxID)
deriving DecidableEq, Repr

/-- Service calls of `applyBucket` (service.go:1303-1339): delete for REMOVE,
update for EXISTS, create otherwise. -/
def applyBucketOps (b : stateBucket) : List ResourceOp :=
  if IsRemoval b.stateStatus then [.deleteBucket b.ID]
  else if IsExisting b.stateStatus then [.updateBucket b.ID]
  else [.createBucket b.parserBkt.pkgName]

/-- Embeds the per-entry body of `applyBuckets.createFn` (service.go:1234-1258):
set the org id, then SKIP the record when `shouldApply` is false. -/
def applyBucketsEntry (orgID : InfluxID) (b : stateBucket) : List ResourceOp :=
  let b := { b with orgID := orgID }
  if !b.shouldApply then [] else applyBucketOps b

/-- Service calls of `applyCheck` (service.go:1421-1448). -/
def applyCheckOps (c : stateCheck) : List ResourceOp :=
  if IsRemoval c.stateStatus then [.deleteCheck c.ID]
  else if IsExisting c.stateStatus then [.updateCheck c.ID]
  else [.createCheck c.parserCheck.pkgName]

/-- Embeds the per-entry body of `applyChecks.createFn` (service.go:1347-1368):
it has NO shouldApply gate — every check record reaches `applyCheck`. -/
def applyChecksEntry (orgID : InfluxID) (c : stateCheck) : List ResourceOp :=
  applyCheckOps { c with orgID := orgID }

/-- Service calls of `applyLabel` (service.go:1656-1679). -/
def applyLabelOps (l : stateLabel) : List ResourceOp :=
  if IsRemoval l.stateStatus then [.deleteLabel l.ID]
  else if IsExisting l.stateStatus then [.updateLabel l.ID]
  else [.createLabel l.parserLabel.pkgName]

/-- Embeds the per-entry body of `applyLabels.createFn` (service.go:1587-1611):
set the org id, then skip when `shouldApply` is false. -/
def applyLabelsEntry (orgID : InfluxID) (l : stateLabel) : List ResourceOp :=
  let l := { l with orgID := orgID }
  if !l.shouldApply then [] else applyLabelOps l

/-- Service calls of `applyVariable` (service.go:2354-2385). -/
def applyVariableOps (v : stateVariable) : List ResourceOp :=
  if IsRemoval v.stateStatus then [.deleteVariable v.id]
  else if IsExisting v.stateStatus then [.updateVariable v.ID]
  else [.createVariable v.parserVar.pkgName]

/-- Embeds the per-entry body of `applyVariables.createFn`
(service.go:2285-2307): set the org id, then skip when `shouldApply` is
false. -/
def applyVariablesEntry (orgID : InfluxID) (v : stateVariable) : List ResourceOp :=
  let v := { v with orgID := orgID }
  if !v.shouldApply then [] else applyVariableOps v

/-! ### Secrets stage (service.go:1992-2031) -/

/-- One secret-service call. -/
inductive SecretOp where
  | putSecrets (orgID : InfluxID) (secrets : List (String × String))
  | deleteSecret (orgID : InfluxID) (keys : List String)
deriving DecidableEq, Repr

/-- Embeds the rollback path of `applySecrets` (service.go:1992-2031).  The
createFn collects the added keys into `rollbackSecrets` after a successful
`PutSecrets`, but the rollbacker calls `DeleteSecret(ctx, orgID)` passing NO
keys at all — `rollbackSecrets` is never read.  The first component is the
secret-service calls the rollback performs (the variadic key list encoded as
a comma-joined string, empty = no keys passed); the second is the dead
`rollbackSecrets` collection, returned so the divergence is visible. -/
def applySecretsRollback (secrets : List (String × String)) (orgID : InfluxID) :
    List SecretOp × List String :=
  if secrets.isEmpty then ([], [])
  else ([SecretOp.deleteSecret orgID []], secrets.map (fun kv => kv.1))

/-! ### Apply control flow around its collaborators (service.go:1121-1164)

`Apply` validates, runs `dryRun` (which reads the stack store exactly when a
positive StackID option is present, service.go:680-684), registers a deferred
stack update (skipped entirely when StackID is zero, service.go:1139-1151),
registers the deferred rollback, and runs `applyState`
(service.go:1166-1226), which calls resource services only — never the stack
store.  The collaborator outcomes enter as parameters: `dryRunErr` and
`applyErr` are the errors those stages produced, `rbs` the compensations
`applyState` registered through `runTilEnd`, `hasChanges` whether
`updateStackAfterRollback` detected an id change (service.go:2679-2773). -/

/-- A stack-store call. -/
inductive StackOp where
  | readStackByID (id : InfluxID)
  | updateStack (id : InfluxID)
deriving DecidableEq, Repr

/-- Stack-store reads of `dryRun` (service.go:678-684): `addStackState`
reads the stack iff the StackID option is positive. -/
def dryRunStackOps (stackID : InfluxID) : List StackOp :=
  if stackID > 0 then [.readStackByID stackID] else []

/-- Stack-store calls of `updateStackAfterSuccess` (service.go:2528-2657):
read, then write. -/
def updateStackAfterSuccessOps (stackID : InfluxID) : List StackOp :=
  [.readStackByID stackID, .updateStack stackID]

/-- Stack-store calls of `updateStackAfterRollback` (service.go:2659-2773):
read, then write only when a change was detected. -/
def updateStackAfterRollbackOps (stackID : InfluxID) (hasChanges : Bool) : List StackOp :=
  .readStackByID stackID :: (if hasChanges then [.updateStack stackID] else [])

/-! ### Family-indexed views of the state coordinator

Every dispatch switch in service.go groups the kind constants into the nine
families; the following are the same functions re-indexed by `Family`, used
to reason uniformly about the reconciliation fold. -/

/-- `identView` re-indexed by family (agrees with `identView` under
`Kind.family`). -/
def stateCoordinator.famView (s : stateCoordinator) (f : Family) (pkgName : String) :
    Option RecordView :=
  match f with
  | .bucket => (mapGet s.mBuckets pkgName).map
      (fun r => ⟨r.id, r.stateStatus, r.parserBkt.pkgName, r.existing.isSome⟩)
  | .check => (mapGet s.mChecks pkgName).map
      (fun r => ⟨r.id, r.stateStatus, r.parserCheck.pkgName, r.existing.isSome⟩)
  | .dashboard => (mapGet s.mDashboards pkgName).map
      (fun r => ⟨r.id, r.stateStatus, r.parserDash.pkgName, r.existing.isSome⟩)
  | .label => (mapGet s.mLabels pkgName).map
      (fun r => ⟨r.id, r.stateStatus, r.parserLabel.pkgName, r.existing.isSome⟩)
  | .endpoint => (mapGet s.mEndpoints pkgName).map
      (fun r => ⟨r.id, r.stateStatus, r.parserEndpoint.pkgName, r.existing.isSome⟩)
  | .rule => (mapGet s.mRules pkgName).map
      (fun r => ⟨r.id, r.stateStatus, r.parserRule.pkgName, r.existing.isSome⟩)
  | .task => (mapGet s.mTasks pkgName).map
      (fun r => ⟨r.id, r.stateStatus, r.parserTask.pkgName, r.existing.isSome⟩)
  | .telegraf => (mapGet s.mTelegrafs pkgName).map
      (fun r => ⟨r.id, r.stateStatus, r.parserTelegraf.pkgName, r.existing.isSome⟩)
  | .variable' => (mapGet s.mVariables pkgName).map
      (fun r => ⟨r.id, r.stateStatus, r.parserVar.pkgName, r.existing.isSome⟩)

/-- `setObjectID` re-indexed by family. -/
def stateCoordinator.setObjectIDFam (s : stateCoordinator) (f : Family) (pkgName : String)
    (id : InfluxID) : stateCoordinator :=
  match f with
  | .bucket =>
      if (mapGet s.mBuckets pkgName).isSome then
        { s with mBuckets := mapUpd s.mBuckets pkgName (fun r => { r with id := id, stateStatus := StateStatusExists }) }
      else s
  | .check =>
      if (mapGet s.mChecks pkgName).isSome then
        { s with mChecks := mapUpd s.mChecks pkgName (fun r => { r with id := id, stateStatus := StateStatusExists }) }
      else s
  | .dashboard =>
      if (mapGet s.mDashboards pkgName).isSome then
        { s with mDashboards := mapUpd s.mDashboards pkgName (fun r => { r with id := id, stateStatus := StateStatusExists }) }
      else s
  | .label =>
      if (mapGet s.mLabels pkgName).isSome then
        { s with mLabels := mapUpd s.mLabels pkgName (fun r => { r with id := id, stateStatus := StateStatusExists }) }
      else s
  | .endpoint =>
      if (mapGet s.mEndpoints pkgName).isSome then
        { s with mEndpoints := mapUpd s.mEndpoints pkgName (fun r => { r with id := id, stateStatus := StateStatusExists }) }
      else s
  | .rule =>
      if (mapGet s.mRules pkgName).isSome then
        { s with mRules := mapUpd s.mRules pkgName (fun r => { r with id := id, stateStatus := StateStatusExists }) }
      else s
  | .task =>
      if (mapGet s.mTasks pkgName).isSome then
        { s with mTasks := mapUpd s.mTasks pkgName (fun r => { r with id := id, stateStatus := StateStatusExists }) }
      else s
  | .telegraf =>
      if (mapGet s.mTelegrafs pkgName).isSome then
        { s with mTelegrafs := mapUpd s.mTelegrafs pkgName (fun r => { r with id := id, stateStatus := StateStatusExists }) }
      else s
  | .variable' =>
      if (mapGet s.mVariables pkgName).isSome then
        { s with mVariables := mapUpd s.mVariables pkgName (fun r => { r with id := id, stateStatus := StateStatusExists }) }
      else s

/-- `addObjectForRemoval` re-indexed by family. -/
def stateCoordinator.addObjectForRemovalFam (s : stateCoordinator) (f : Family)
    (pkgName : String) (id : InfluxID) : stateCoordinator :=
  match f with
  | .bucket =>
      { s with mBuckets := mapPut s.mBuckets pkgName { id := id, stateStatus := StateStatusRemove, parserBkt := { pkgName := pkgName, name := pkgName } } }
  | .check =>
      { s with mChecks := mapPut s.mChecks pkgName { id := id, stateStatus := StateStatusRemove, parserCheck := { pkgName := pkgName, name := pkgName } } }
  | .dashboard =>
      { s with mDashboards := mapPut s.mDashboards pkgName { id := id, stateStatus := StateStatusRemove, parserDash := { pkgName := pkgName, name := pkgName } } }
  | .label =>
      { s with mLabels := mapPut s.mLabels pkgName { id := id, stateStatus := StateStatusRemove, parserLabel := { pkgName := pkgName, name := pkgName } } }
  | .endpoint =>
      { s with mEndpoints := mapPut s.mEndpoints pkgName { id := id, stateStatus := StateStatusRemove, parserEndpoint := { pkgName := pkgName, name := pkgName } } }
  | .rule =>
      { s with mRules := mapPut s.mRules pkgName { id := id, stateStatus := StateStatusRemove, parserRule := { pkgName := pkgName, name := pkgName } } }
  | .task =>
      { s with mTasks := mapPut s.mTasks pkgName { id := id, stateStatus := StateStatusRemove, parserTask := { pkgName := pkgName, name := pkgName } } }
  | .telegraf =>
      { s with mTelegrafs := mapPut s.mTelegrafs pkgName { id := id, stateStatus := StateStatusRemove, parserTelegraf := { pkgName := pkgName, name := pkgName } } }
  | .variable' =>
      { s with mVariables := mapPut s.mVariables pkgName { id := id, stateStatus := StateStatusRemove, parserVar := { pkgName := pkgName, name := pkgName } } }

/-- The reconciliation key of a stack resource: its kind family together
with its pkg-name (the pair the per-kind maps are indexed by). -/
def StackResource.key (r : StackResource) : Family × String :=
  (r.kind.family, r.pkgName)

/-! ### Spec-side predicates and concrete instances used to settle claims -/

/-- The spec's `shouldApply` reading applied to a check record ("status is
REMOVE, or existing is absent, or an observable parsed field differs from
existing") — stated from the spec's words for comparison: `stateCheck` has
no such method in the code. -/
def specShouldApplyCheck (c : stateCheck) : Bool :=
  IsRemoval c.stateStatus ||
    match c.existing with
    | none => true
    | some e => c.parserCheck.name != e.name || c.parserCheck.description != e.description

/-- A rule that the dry-run endpoint binding must reject: not yet bound, not
being removed, and its endpoint pkg-name absent from the endpoint map. -/
def ruleLacksEndpoint (endpoints : List (String × stateEndpoint)) (r : stateRule) : Bool :=
  !r.associatedEndpoint.isSome && !IsRemoval r.stateStatus &&
    (mapGet endpoints r.parserRule.endpointPkgName).isNone

/-- Example applier with a trivial creater (used to exhibit registration
order). -/
def applierA : applier :=
  { crt := { entries := 0, fn := fun _ _ _ => none }
  , rb := { resource := "a", fn := fun _ => none } }

/-- Second example applier. -/
def applierB : applier :=
  { crt := { entries := 0, fn := fun _ _ _ => none }
  , rb := { resource := "b", fn := fun _ => none } }

/-- A rollbacker whose compensation fails. -/
def rbFail : rollbacker := { resource := "bucket", fn := fun _ => some "boom" }

/-- Platform dashboards for the dashboard dry-run counterexample. -/
def exDashboards : List InfluxDashboard := [{ id := 1, name := "d", description := "" }]

/-- Dashboard service over `exDashboards` (lookup by id, as the contract
provides). -/
def exDashboardService : DashboardService :=
  { findDashboardByID := fun i => exDashboards.find? (fun d => d.id == i) }

/-- The name lookup the service contract offers for dashboards (spec §4.A
`findByName(org)`), over the same platform content. -/
def exFindDashboardByName (name : String) : Option InfluxDashboard :=
  exDashboards.find? (fun d => d.name == name)

/-- A NEW dashboard record with no id whose name matches a platform
dashboard. -/
def exDashRecord : stateDashboard :=
  { stateStatus := StateStatusNew, parserDash := { pkgName := "d0", name := "d" } }

/-- A bucket platform + service for the dry-run witness. -/
def exBucketService : BucketService :=
  { findBucketByID := fun i =>
      if i == 5 then some { id := 5, name := "B", description := "", retentionPeriod := 0 } else none
  , findBucketByName := fun _ n =>
      if n == "B" then some { id := 5, name := "B", description := "", retentionPeriod := 0 } else none }

/-- A bucket record carrying a stack-reconciled id. -/
def exBucketRecord : stateBucket :=
  { id := 5, stateStatus := StateStatusExists, parserBkt := { pkgName := "b0", name := "B" } }

/-- An EXISTS check whose parsed fields match the platform entity: the
spec-side gate is false, yet applyChecks still updates it. -/
def exCheckNoop : stateCheck :=
  { stateStatus := StateStatusExists
  , parserCheck := { pkgName := "c0", name := "C", description := "d" }
  , existing := some { id := 4, name := "C", description := "d" } }

/-- An EXISTS bucket whose parsed fields match the platform entity (the gate
is false, so applyBuckets skips it). -/
def exBucketNoop : stateBucket :=
  { stateStatus := StateStatusExists
  , parserBkt := { pkgName := "b0", name := "B", description := "", retentionRP := 3 }
  , existing := some { id := 3, name := "B", description := "", retentionPeriod := 3 } }

/-- Example package holding one bucket, for the reconciliation witness. -/
def exPkg : Pkg := { buckets := [{ pkgName := "b1", name := "B1" }] }

/-- Example stack resources: one matching the package bucket, one orphaned
label. -/
def exStackResources : List StackResource :=
  [ { apiVersion := APIVersion, id := 7, kind := Kind.bucket, pkgName := "b1" }
  , { apiVersion := APIVersion, id := 9, kind := Kind.label, pkgName := "l1" } ]

/-- Example endpoint map for the rule-binding witness. -/
def exEndpoints : List (String × stateEndpoint) :=
  [("e1", { stateStatus := StateStatusNew, parserEndpoint := { pkgName := "e1", name := "E1" } })]

/-- A rule bound to endpoint pkg-name "e1" (present in `exEndpoints`). -/
def exRuleGood : stateRule :=
  { stateStatus := StateStatusNew
  , parserRule := { pkgName := "r1", name := "R1", endpointPkgName := "e1", endpointName := "E1" } }

/-- A rule referencing a missing endpoint pkg-name. -/
def exRuleBad : stateRule :=
  { stateStatus := StateStatusNew
  , parserRule := { pkgName := "r2", name := "R2", endpointPkgName := "nope", endpointName := "Nope" } }

/-- A rule service with no rules. -/
def exRuleService : RuleService := { findNotificationRuleByID := fun _ => none }

/-- The output `dryRunNotificationRules` produces for `exRuleGood` against
`exEndpoints`: the rule with its org set and the endpoint bound. -/
def exRuleBoundOut : List (String × stateRule) :=
  [("r1",
    { id := 0, orgID := 1, stateStatus := StateStatusNew
    , associatedEndpoint :=
        some { stateStatus := StateStatusNew, parserEndpoint := { pkgName := "e1", name := "E1" } }
    , parserRule := { pkgName := "r1", name := "R1", endpointPkgName := "e1", endpointName := "E1" }
    , existing := none })]

/-- The observable outcome of one `Apply` call: the error returned to the
caller, the stack-store calls performed, the rollback invocation trace and
the log lines. -/
structure ApplyEffects where
  err : Option String
  stackOps : List StackOp
  rollbackTrace : List String
  logs : List String

/-- Embeds the control flow of `Service.Apply` (service.go:1121-1164): a
dry-run failure returns before the stack-update defer is registered; on the
main path the deferred rollback runs first (a no-op when the apply error is
nil), then the deferred stack update (skipped when stackID is zero; after an
error it reconciles instead of rewriting); the error returned to the caller
is the one `applyState` produced — the rollback only reads it. -/
def ServiceApply (stackID : InfluxID) (dryRunErr : Option String) (applyErr : Option String)
    (rbs : List rollbacker) (orgID : InfluxID) (hasChanges : Bool) : ApplyEffects :=
  if dryRunErr.isSome then
    { err := dryRunErr, stackOps := dryRunStackOps stackID, rollbackTrace := [], logs := [] }
  else
    let rolled := rollbackCoordinator.rollback { rollbacks := rbs } applyErr orgID
    let stackUpd :=
      if stackID == 0 then []
      else if applyErr.isSome then updateStackAfterRollbackOps stackID hasChanges
      else updateStackAfterSuccessOps stackID
    { err := applyErr, stackOps := dryRunStackOps stackID ++ stackUpd
    , rollbackTrace := rolled.1, logs := rolled.2 }

/-! ## Theorems -/

/-! ### Generic association-list lemmas -/

theorem optMap_isSome {α β : Type} (f : α → β) (o : Option α) :
    (o.map f).isSome = o.isSome := by
  cases o <;> rfl

theorem mapGet_cons {κ α : Type} [BEq κ] (x : κ × α) (m : List (κ × α)) (k : κ) :
    mapGet (x :: m) k = if x.1 == k then some x.2 else mapGet m k := by
  cases h : x.1 == k <;> simp [mapGet, List.find?, h]

theorem mapUpd_cons {κ α : Type} [BEq κ] (x : κ × α) (m : List (κ × α)) (k : κ) (f : α → α) :
    mapUpd (x :: m) k f = (if x.1 == k then (x.1, f x.2) else x) :: mapUpd m k f := by
  by_cases h : x.1 == k <;> simp [mapUpd, h]

theorem mapGet_mapUpd_self {κ α : Type} [BEq κ] (m : List (κ × α)) (k : κ) (f : α → α) :
    mapGet (mapUpd m k f) k = (mapGet m k).map f := by
  induction m with
  | nil => rfl
  | cons x t ih =>
    by_cases h : x.1 == k
    · simp [mapUpd_cons, mapGet_cons, h]
    · simp [mapUpd_cons, mapGet_cons, h, ih]

theorem mapGet_mapUpd_ne {κ α : Type} [BEq κ] [LawfulBEq κ] (m : List (κ × α)) (k k' : κ)
    (f : α → α) (h : k ≠ k') : mapGet (mapUpd m k f) k' = mapGet m k' := by
  induction m with
  | nil => rfl
  | cons x t ih =>
    by_cases hx : x.1 == k
    · have hx1 : x.1 = k := eq_of_beq hx
      have hx' : (x.1 == k') = false := by
        subst hx1
        exact beq_eq_false_iff_ne.mpr h
      simp [mapUpd_cons, mapGet_cons, hx, hx', ih]
    · simp only [mapUpd_cons, hx, if_neg (by simp [hx] : ¬((x.1 == k) = true))]
      by_cases hx' : x.1 == k'
      · simp [mapGet_cons, hx']
      · simp [mapGet_cons, hx', ih]

theorem mapGet_append {κ α : Type} [BEq κ] (m n : List (κ × α)) (k : κ) :
    mapGet (m ++ n) k = if (mapGet m k).isSome then mapGet m k else mapGet n k := by
  induction m with
  | nil => simp [mapGet]
  | cons x t ih =>
    by_cases h : x.1 == k
    · simp [mapGet_cons, h]
    · simp [mapGet_cons, h, ih]

theorem mapGet_mapPut_self {κ α : Type} [BEq κ] [LawfulBEq κ] (m : List (κ × α)) (k : κ)
    (v : α) : mapGet (mapPut m k v) k = some v := by
  unfold mapPut
  split
  · rename_i h
    rw [mapGet_mapUpd_self]
    cases hm : mapGet m k with
    | none => rw [hm] at h; simp at h
    | some a => simp
  · rename_i h
    rw [mapGet_append]
    simp only [h, if_false]
    simp [mapGet_cons]

theorem mapGet_mapPut_ne {κ α : Type} [BEq κ] [LawfulBEq κ] (m : List (κ × α)) (k k' : κ)
    (v : α) (h : k ≠ k') : mapGet (mapPut m k v) k' = mapGet m k' := by
  unfold mapPut
  split
  · exact mapGet_mapUpd_ne m k k' _ h
  · rw [mapGet_append]
    have h1 : mapGet ([(k, v)] : List (κ × α)) k' = none := by
      rw [mapGet_cons]
      simp [beq_eq_false_iff_ne.mpr h, mapGet]
    rw [h1]
    cases hm : mapGet m k' <;> simp

theorem mapGet_isSome_foldl_mapPut {κ α β : Type} [BEq κ] [LawfulBEq κ]
    (key : β → κ) (val : β → α) (l : List β) (m : List (κ × α)) (p : κ) :
    (mapGet (l.foldl (fun acc b => mapPut acc (key b) (val b)) m) p).isSome =
      ((mapGet m p).isSome || l.any (fun b => key b == p)) := by
  induction l generalizing m with
  | nil => simp
  | cons b t ih =>
    have hstep : (mapGet (mapPut m (key b) (val b)) p).isSome =
        ((mapGet m p).isSome || (key b == p)) := by
      by_cases hb : key b = p
      · subst hb
        simp [mapGet_mapPut_self]
      · rw [mapGet_mapPut_ne _ _ _ _ hb]
        simp [beq_eq_false_iff_ne.mpr hb]
    simp only [List.foldl_cons, List.any_cons, ih, hstep, Bool.or_assoc]

/-! ### C9 — zero-value status is NEW -/

/-- C9: `IsNew` returns true exactly for `StateStatusNew` and the empty
(zero-value) string, and every state record's `ID()` method treats the
zero-value status exactly like NEW. -/
theorem isNew_spec_and_zero_value_ID :
    (∀ s : StateStatus, IsNew s = true ↔ (s = StateStatusNew ∨ s = "")) ∧
    (∀ b : stateBucket, stateBucket.ID { b with stateStatus := "" } =
      stateBucket.ID { b with stateStatus := StateStatusNew }) ∧
    (∀ c : stateCheck, stateCheck.ID { c with stateStatus := "" } =
      stateCheck.ID { c with stateStatus := StateStatusNew }) ∧
    (∀ d : stateDashboard, stateDashboard.ID { d with stateStatus := "" } =
      stateDashboard.ID { d with stateStatus := StateStatusNew }) ∧
    (∀ l : stateLabel, stateLabel.ID { l with stateStatus := "" } =
      stateLabel.ID { l with stateStatus := StateStatusNew }) ∧
    (∀ e : stateEndpoint, stateEndpoint.ID { e with stateStatus := "" } =
      stateEndpoint.ID { e with stateStatus := StateStatusNew }) ∧
    (∀ r : stateRule, stateRule.ID { r with stateStatus := "" } =
      stateRule.ID { r with stateStatus := StateStatusNew }) ∧
    (∀ t : stateTask, stateTask.ID { t with stateStatus := "" } =
      stateTask.ID { t with stateStatus := StateStatusNew }) ∧
    (∀ t : stateTelegraf, stateTelegraf.ID { t with stateStatus := "" } =
      stateTelegraf.ID { t with stateStatus := StateStatusNew }) ∧
    (∀ v : stateVariable, stateVariable.ID { v with stateStatus := "" } =
      stateVariable.ID { v with stateStatus := StateStatusNew }) := by
  refine ⟨?_, ?_, ?_, ?_, ?_, ?_, ?_, ?_, ?_, ?_⟩
  · intro s
    simp [IsNew, Bool.or_eq_true, beq_iff_eq]
  · intro b
    cases b.existing <;> simp [stateBucket.ID, IsNew, StateStatusNew]
  · intro c
    cases c.existing <;> simp [stateCheck.ID, IsNew, StateStatusNew]
  · intro d
    cases d.existing <;> simp [stateDashboard.ID, IsNew, StateStatusNew]
  · intro l
    cases l.existing <;> simp [stateLabel.ID, IsNew, StateStatusNew]
  · intro e
    cases e.existing <;> simp [stateEndpoint.ID, IsNew, StateStatusNew]
  · intro r
    cases r.existing <;> simp [stateRule.ID, IsNew, StateStatusNew]
  · intro t
    cases t.existing <;> simp [stateTask.ID, IsNew, StateStatusNew]
  · intro t
    cases t.existing <;> simp [stateTelegraf.ID, IsNew, StateStatusNew]
  · intro v
    cases v.existing <;> simp [stateVariable.ID, IsNew, StateStatusNew]

/-! ### C10 — no stack-store traffic without a stack id -/

/-- C10: an `Apply` (and the dry-run inside it) touches the stack store iff
a non-zero StackID option was supplied: stack state is loaded only when
`StackID > 0`, and the post-apply stack update (success or rollback path) is
skipped entirely when `StackID = 0`. -/
theorem apply_stack_store_untouched_without_stackID
    (stackID : InfluxID) (dryRunErr applyErr : Option String) (rbs : List rollbacker)
    (orgID : InfluxID) (hasChanges : Bool) :
    ((ServiceApply stackID dryRunErr applyErr rbs orgID hasChanges).stackOps = [] ↔
      stackID = 0) ∧
    dryRunStackOps 0 = [] := by
  constructor
  · unfold ServiceApply
    split
    · show dryRunStackOps stackID = [] ↔ stackID = 0
      unfold dryRunStackOps
      by_cases hz : stackID = 0
      · subst hz
        simp
      · simp [Nat.pos_of_ne_zero hz, hz]
    · show dryRunStackOps stackID ++ _ = [] ↔ stackID = 0
      by_cases hz : stackID = 0
      · subst hz
        simp [dryRunStackOps, updateStackAfterRollbackOps, updateStackAfterSuccessOps]
      · simp [dryRunStackOps, Nat.pos_of_ne_zero hz, hz]
  · rfl

/-! ### C8 — secrets rollback passes no keys -/

/-- C8: at the failing input (one added secret key "sec1"), the rollback of
`applySecrets` performs a `DeleteSecret` call that passes NO keys — though
the apply collected exactly the key "sec1" into its (never read)
`rollbackSecrets` list — so the key the apply added is not the key list
passed to the delete. -/
theorem applySecrets_rollback_passes_no_keys :
    applySecretsRollback [("sec1", "v")] 1 =
      ([SecretOp.deleteSecret 1 []], ["sec1"]) ∧
    ([] : List String) ≠ ["sec1"] := by
  constructor
  · rfl
  · intro h
    simp at h

/-! ### Rollback-loop lemmas shared by C1 and C7 -/

theorem rollback_foldl_fst (orgID : InfluxID) (rbs : List rollbacker)
    (acc : List String × List String) :
    (rbs.foldl
      (fun acc rb =>
        match rb.fn orgID with
        | some e => (acc.1 ++ [rb.resource], acc.2 ++ ["failed to delete " ++ rb.resource ++ ": " ++ e])
        | none => (acc.1 ++ [rb.resource], acc.2))
      acc).1 = acc.1 ++ rbs.map (fun rb => rb.resource) := by
  induction rbs generalizing acc with
  | nil => simp
  | cons rb t ih =>
    cases h : rb.fn orgID <;> simp [h, ih]

theorem rollback_foldl_snd (orgID : InfluxID) (rbs : List rollbacker)
    (acc : List String × List String) :
    (rbs.foldl
      (fun acc rb =>
        match rb.fn orgID with
        | some e => (acc.1 ++ [rb.resource], acc.2 ++ ["failed to delete " ++ rb.resource ++ ": " ++ e])
        | none => (acc.1 ++ [rb.resource], acc.2))
      acc).2 = acc.2 ++ rbs.filterMap
        (fun rb => (rb.fn orgID).map (fun e => "failed to delete " ++ rb.resource ++ ": " ++ e)) := by
  induction rbs generalizing acc with
  | nil => simp
  | cons rb t ih =>
    cases h : rb.fn orgID <;> simp [h, ih]

/-! ### C1 — rollback order -/

/-- C1 (amended): when a stage reports an error, the coordinator invokes
every compensation registered during `runTilEnd` — the rollbackers appended
in applier order — but in FORWARD registration order (first registered,
first invoked), not in reverse. -/
theorem rollback_invokes_all_in_registration_order
    (co : rollbackCoordinator) (orgID userID : InfluxID) (appliers : List applier)
    (e : String) :
    ((co.runTilEnd orgID userID appliers).1.rollbacks =
      co.rollbacks ++ appliers.map (fun a => a.rb)) ∧
    (((co.runTilEnd orgID userID appliers).1.rollback (some e) orgID).1 =
      (co.runTilEnd orgID userID appliers).1.rollbacks.map (fun rb => rb.resource)) := by
  constructor
  · rfl
  · unfold rollbackCoordinator.rollback
    exact rollback_foldl_fst orgID _ ([], [])

/-- C1 counterexample: with two appliers registered in order a, b, the
rollback invocation order is a then b — not the reverse of the registration
order the claim states. -/
theorem rollback_order_not_reverse_counterexample :
    ((rollbackCoordinator.runTilEnd {} 1 1 [applierA, applierB]).1.rollback (some "boom") 1).1 ≠
      ((rollbackCoordinator.runTilEnd {} 1 1 [applierA, applierB]).1.rollbacks.reverse.map
        (fun rb => rb.resource)) := by
  intro h
  simp [rollbackCoordinator.runTilEnd, rollbackCoordinator.rollback, applierA, applierB] at h

/-! ### C7 — compensation failures are logged, original error returned -/

/-- C7: during rollback a failing compensation is logged and the loop keeps
going — the invocation trace covers every registered compensation no matter
which compensations fail — and `Apply` returns the original stage error, not
any compensation error. -/
theorem rollback_failure_logged_original_error_returned
    (stackID : InfluxID) (e : String) (rbs : List rollbacker) (orgID : InfluxID)
    (hasChanges : Bool) :
    ((ServiceApply stackID none (some e) rbs orgID hasChanges).err = some e) ∧
    ((ServiceApply stackID none (some e) rbs orgID hasChanges).rollbackTrace =
      rbs.map (fun rb => rb.resource)) ∧
    (∀ rb ∈ rbs, ∀ m, rb.fn orgID = some m →
      ("failed to delete " ++ rb.resource ++ ": " ++ m) ∈
        (ServiceApply stackID none (some e) rbs orgID hasChanges).logs) := by
  refine ⟨rfl, ?_, ?_⟩
  · show (rollbackCoordinator.rollback ⟨rbs⟩ (some e) orgID).1 = _
    unfold rollbackCoordinator.rollback
    exact rollback_foldl_fst orgID _ ([], [])
  · intro rb hmem m hm
    show _ ∈ (rollbackCoordinator.rollback ⟨rbs⟩ (some e) orgID).2
    unfold rollbackCoordinator.rollback
    rw [rollback_foldl_snd orgID _ ([], [])]
    simp only [List.nil_append]
    exact List.mem_filterMap.mpr ⟨rb, hmem, by rw [hm]; rfl⟩

/-- Witness for C7: a concrete failing compensation is logged, and Apply
still returns the stage error. -/
theorem rollback_failure_logged_original_error_returned_witness :
    ("failed to delete bucket: boom") ∈
      (ServiceApply 0 none (some "stage error") [rbFail] 1 false).logs ∧
    (ServiceApply 0 none (some "stage error") [rbFail] 1 false).err = some "stage error" := by
  refine ⟨?_, (rollback_failure_logged_original_error_returned 0 "stage error" [rbFail] 1 false).1⟩
  exact (rollback_failure_logged_original_error_returned 0 "stage error" [rbFail] 1 false).2.2
    rbFail (by simp) "boom" rfl

/-! ### C4 — the shouldApply gate -/

/-- C4 (amended): `shouldApply` exists on bucket, label and variable records
and returns true exactly when the status is REMOVE, or the existing platform
entity is absent, or an observable field of the parsed form differs from
existing; the bucket, label and variable appliers skip a record whose
`shouldApply` is false.  Check records carry no such method and no gate:
`applyChecks` performs a service call for every record. -/
theorem shouldApply_characterization_and_gating :
    (∀ b : stateBucket, b.shouldApply = true ↔
      (IsRemoval b.stateStatus = true ∨ b.existing = none ∨
        ∃ e, b.existing = some e ∧
          (b.parserBkt.description ≠ e.description ∨ b.parserBkt.name ≠ e.name ∨
            b.parserBkt.retentionRP ≠ e.retentionPeriod))) ∧
    (∀ (orgID : InfluxID) (b : stateBucket), b.shouldApply = false →
      applyBucketsEntry orgID b = []) ∧
    (∀ l : stateLabel, l.shouldApply = true ↔
      (IsRemoval l.stateStatus = true ∨ l.existing = none ∨
        ∃ e, l.existing = some e ∧
          (l.parserLabel.description ≠ e.description ∨ l.parserLabel.name ≠ e.name ∨
            l.parserLabel.color ≠ e.color))) ∧
    (∀ (orgID : InfluxID) (l : stateLabel), l.shouldApply = false →
      applyLabelsEntry orgID l = []) ∧
    (∀ v : stateVariable, v.shouldApply = true ↔
      (IsRemoval v.stateStatus = true ∨ v.existing = none ∨
        ∃ e, v.existing = some e ∧
          (e.description ≠ v.parserVar.description ∨ e.arguments = none ∨
            e.arguments ≠ some v.parserVar.influxVarArgs))) ∧
    (∀ (orgID : InfluxID) (v : stateVariable), v.shouldApply = false →
      applyVariablesEntry orgID v = []) ∧
    (∀ (orgID : InfluxID) (c : stateCheck), applyChecksEntry orgID c ≠ []) := by
  refine ⟨?_, ?_, ?_, ?_, ?_, ?_, ?_⟩
  · intro b
    cases he : b.existing <;>
      simp [stateBucket.shouldApply, he, Bool.or_eq_true, bne_iff_ne, or_assoc]
  · intro orgID b h
    have hb : ({ b with orgID := orgID } : stateBucket).shouldApply = b.shouldApply := rfl
    simp [applyBucketsEntry, hb, h]
  · intro l
    cases he : l.existing <;>
      simp [stateLabel.shouldApply, he, Bool.or_eq_true, bne_iff_ne, or_assoc]
  · intro orgID l h
    have hl : ({ l with orgID := orgID } : stateLabel).shouldApply = l.shouldApply := rfl
    simp [applyLabelsEntry, hl, h]
  · intro v
    cases he : v.existing <;>
      simp [stateVariable.shouldApply, he, Bool.or_eq_true, bne_iff_ne, or_assoc]
  · intro orgID v h
    have hv : ({ v with orgID := orgID } : stateVariable).shouldApply = v.shouldApply := rfl
    simp [applyVariablesEntry, hv, h]
  · intro orgID c
    unfold applyChecksEntry applyCheckOps
    split_ifs <;> simp

/-- Witness for C4: a concrete EXISTS bucket whose parsed fields match the
platform entity is skipped by applyBuckets. -/
theorem shouldApply_characterization_and_gating_witness :
    stateBucket.shouldApply exBucketNoop = false ∧ applyBucketsEntry 1 exBucketNoop = [] := by
  refine ⟨by decide, ?_⟩
  exact shouldApply_characterization_and_gating.2.1 1 exBucketNoop (by decide)

/-- C4 counterexample: an EXISTS check whose parsed fields equal the platform
entity — so the claim's predicate ("REMOVE, or existing absent, or an
observable field differs") is false — still triggers an update service call:
check records have no shouldApply and are not skipped. -/
theorem applyChecks_ungated_counterexample :
    specShouldApplyCheck exCheckNoop = false ∧ applyChecksEntry 1 exCheckNoop ≠ [] := by
  decide

/-! ### C3 — dry-run lookup discipline -/

/-- C3 (amended): during dry-run, buckets, checks and labels are fetched by
id when the record's id is non-zero and otherwise by name within the org;
variables likewise against the bulk variable listing; endpoints are resolved
from the bulk endpoint listing by id first, falling back to name; dashboards,
tasks, telegraf configs and notification rules are fetched ONLY by id — a
zero-id record of those kinds gets no platform lookup at all, matching names
notwithstanding.  Whatever a lookup yields is attached as `existing`, and a
NEW record whose lookup found an entity is promoted to EXISTS, all other
statuses stay unchanged (rules keep their status always). -/
theorem dryRun_existing_lookup_discipline :
    (∀ (svc : BucketService) (orgID : InfluxID) (b : stateBucket),
      (b.ID ≠ 0 → (dryRunBucketRecord svc orgID b).existing = svc.findBucketByID b.ID) ∧
      (b.ID = 0 → (dryRunBucketRecord svc orgID b).existing =
        svc.findBucketByName orgID b.parserBkt.name) ∧
      ((dryRunBucketRecord svc orgID b).stateStatus =
        if IsNew b.stateStatus && (dryRunBucketRecord svc orgID b).existing.isSome
        then StateStatusExists else b.stateStatus)) ∧
    (∀ (svc : CheckService) (orgID : InfluxID) (c : stateCheck),
      (c.ID ≠ 0 → (dryRunCheckRecord svc orgID c).existing = svc.findCheckByID c.ID) ∧
      (c.ID = 0 → (dryRunCheckRecord svc orgID c).existing =
        svc.findCheck orgID c.parserCheck.name) ∧
      ((dryRunCheckRecord svc orgID c).stateStatus =
        if IsNew c.stateStatus && (dryRunCheckRecord svc orgID c).existing.isSome
        then StateStatusExists else c.stateStatus)) ∧
    (∀ (svc : LabelService) (orgID : InfluxID) (l : stateLabel),
      (l.ID ≠ 0 → (dryRunLabelRecord svc orgID l).existing = svc.findLabelByID l.ID) ∧
      (l.ID = 0 → (dryRunLabelRecord svc orgID l).existing =
        (svc.findLabels orgID l.parserLabel.name).head?) ∧
      ((dryRunLabelRecord svc orgID l).stateStatus =
        if IsNew l.stateStatus && (dryRunLabelRecord svc orgID l).existing.isSome
        then StateStatusExists else l.stateStatus)) ∧
    (∀ (eps : List InfluxEndpoint) (e : stateEndpoint),
      ((dryRunEndpointRecord eps e).existing =
        match mapGet (eps.foldl (fun m x => mapPut m x.id x) []) e.ID with
        | some x => some x
        | none => mapGet (eps.foldl (fun m x => mapPut m x.name x) []) e.parserEndpoint.name) ∧
      ((dryRunEndpointRecord eps e).stateStatus =
        if IsNew e.stateStatus && (dryRunEndpointRecord eps e).existing.isSome
        then StateStatusExists else e.stateStatus)) ∧
    (∀ (existingVars : List InfluxVariable) (v : stateVariable),
      (v.ID ≠ 0 → (dryRunVariableRecord existingVars v).existing =
        mapGet (existingVars.foldl (fun m x => mapPut m x.id x) []) v.ID) ∧
      (v.ID = 0 → (dryRunVariableRecord existingVars v).existing =
        mapGet (existingVars.foldl (fun m x => mapPut m x.name x) []) v.parserVar.name) ∧
      ((dryRunVariableRecord existingVars v).stateStatus =
        if IsNew v.stateStatus && (dryRunVariableRecord existingVars v).existing.isSome
        then StateStatusExists else v.stateStatus)) ∧
    (∀ (svc : DashboardService) (orgID : InfluxID) (d : stateDashboard),
      (d.ID ≠ 0 → (dryRunDashboardRecord svc orgID d).existing = svc.findDashboardByID d.ID) ∧
      (d.ID = 0 → (dryRunDashboardRecord svc orgID d).existing = none) ∧
      ((dryRunDashboardRecord svc orgID d).stateStatus =
        if IsNew d.stateStatus && (dryRunDashboardRecord svc orgID d).existing.isSome
        then StateStatusExists else d.stateStatus)) ∧
    (∀ (svc : TaskService) (orgID : InfluxID) (t : stateTask),
      (t.ID ≠ 0 → (dryRunTaskRecord svc orgID t).existing = svc.findTaskByID t.ID) ∧
      (t.ID = 0 → (dryRunTaskRecord svc orgID t).existing = none) ∧
      ((dryRunTaskRecord svc orgID t).stateStatus =
        if IsNew t.stateStatus && (dryRunTaskRecord svc orgID t).existing.isSome
        then StateStatusExists else t.stateStatus)) ∧
    (∀ (svc : TelegrafService) (orgID : InfluxID) (t : stateTelegraf),
      (t.ID ≠ 0 → (dryRunTelegrafRecord svc orgID t).existing = svc.findTelegrafConfigByID t.ID) ∧
      (t.ID = 0 → (dryRunTelegrafRecord svc orgID t).existing = none) ∧
      ((dryRunTelegrafRecord svc orgID t).stateStatus =
        if IsNew t.stateStatus && (dryRunTelegrafRecord svc orgID t).existing.isSome
        then StateStatusExists else t.stateStatus)) ∧
    (∀ (svc : RuleService) (orgID : InfluxID) (r : stateRule),
      (r.ID ≠ 0 → (dryRunRuleRecord svc orgID r).existing = svc.findNotificationRuleByID r.ID) ∧
      (r.ID = 0 → (dryRunRuleRecord svc orgID r).existing = none) ∧
      ((dryRunRuleRecord svc orgID r).stateStatus = r.stateStatus)) := by
  refine ⟨?_, ?_, ?_, ?_, ?_, ?_, ?_, ?_, ?_⟩
  · intro svc orgID b
    have hID : ({ b with orgID := orgID } : stateBucket).ID = b.ID := rfl
    refine ⟨?_, ?_, rfl⟩
    · intro h
      have hb : (b.ID != 0) = true := by simpa [bne_iff_ne] using h
      simp [dryRunBucketRecord, hID, hb]
    · intro h
      simp [dryRunBucketRecord, hID, h]
  · intro svc orgID c
    have hID : ({ c with orgID := orgID } : stateCheck).ID = c.ID := rfl
    refine ⟨?_, ?_, rfl⟩
    · intro h
      have hc : (c.ID != 0) = true := by simpa [bne_iff_ne] using h
      simp [dryRunCheckRecord, hID, hc]
    · intro h
      simp [dryRunCheckRecord, hID, h]
  · intro svc orgID l
    have hID : ({ l with orgID := orgID } : stateLabel).ID = l.ID := rfl
    refine ⟨?_, ?_, rfl⟩
    · intro h
      have hl : (l.ID != 0) = true := by simpa [bne_iff_ne] using h
      simp [dryRunLabelRecord, findLabel, hID, hl]
    · intro h
      simp [dryRunLabelRecord, findLabel, hID, h]
  · intro eps e
    exact ⟨rfl, rfl⟩
  · intro existingVars v
    refine ⟨?_, ?_, rfl⟩
    · intro h
      have hv : (v.ID != 0) = true := by simpa [bne_iff_ne] using h
      simp [dryRunVariableRecord, hv]
    · intro h
      simp [dryRunVariableRecord, h]
  · intro svc orgID d
    have hID : ({ d with orgID := orgID } : stateDashboard).ID = d.ID := rfl
    refine ⟨?_, ?_, rfl⟩
    · intro h
      have hd : (d.ID != 0) = true := by simpa [bne_iff_ne] using h
      simp [dryRunDashboardRecord, hID, hd]
    · intro h
      simp [dryRunDashboardRecord, hID, h]
  · intro svc orgID t
    have hID : ({ t with orgID := orgID } : stateTask).ID = t.ID := rfl
    refine ⟨?_, ?_, rfl⟩
    · intro h
      have ht : (t.ID != 0) = true := by simpa [bne_iff_ne] using h
      simp [dryRunTaskRecord, hID, ht]
    · intro h
      simp [dryRunTaskRecord, hID, h]
  · intro svc orgID t
    have hID : ({ t with orgID := orgID } : stateTelegraf).ID = t.ID := rfl
    refine ⟨?_, ?_, rfl⟩
    · intro h
      have ht : (t.ID != 0) = true := by simpa [bne_iff_ne] using h
      simp [dryRunTelegrafRecord, hID, ht]
    · intro h
      simp [dryRunTelegrafRecord, hID, h]
  · intro svc orgID r
    have hID : ({ r with orgID := orgID } : stateRule).ID = r.ID := rfl
    refine ⟨?_, ?_, rfl⟩
    · intro h
      have hr : (r.ID != 0) = true := by simpa [bne_iff_ne] using h
      simp [dryRunRuleRecord, hID, hr]
    · intro h
      simp [dryRunRuleRecord, hID, h]

/-- Witness for C3 (amended): a bucket with a reconciled non-zero id is
fetched by that id; a zero-id dashboard gets no lookup. -/
theorem dryRun_existing_lookup_discipline_witness :
    (dryRunBucketRecord exBucketService 1 exBucketRecord).existing =
      exBucketService.findBucketByID exBucketRecord.ID ∧
    (dryRunDashboardRecord exDashboardService 1 exDashRecord).existing = none := by
  refine ⟨?_, ?_⟩
  · exact (dryRun_existing_lookup_discipline.1 exBucketService 1 exBucketRecord).1 (by decide)
  · exact (dryRun_existing_lookup_discipline.2.2.2.2.2.1 exDashboardService 1 exDashRecord).2.1
      (by decide)

/-- C3 counterexample: a NEW dashboard record with zero id whose name matches
an existing platform dashboard.  The claim predicts a by-name lookup (which
would find the dashboard and promote the record); the code performs no lookup
for dashboards without an id: `existing` stays absent, the status stays
NEW. -/
theorem dryRun_dashboard_name_lookup_counterexample :
    (dryRunDashboardRecord exDashboardService 1 exDashRecord).existing = none ∧
    exFindDashboardByName "d" = some { id := 1, name := "d", description := "" } ∧
    (dryRunDashboardRecord exDashboardService 1 exDashRecord).existing ≠
      exFindDashboardByName "d" ∧
    (dryRunDashboardRecord exDashboardService 1 exDashRecord).stateStatus = StateStatusNew := by
  decide

/-! ### C2 — stack rewrite after success -/

theorem filter_map_comm {α β : Type} (f : α → β) (p : β → Bool) (l : List α) :
    (l.map f).filter p = (l.filter (fun a => p (f a))).map f := by
  induction l with
  | nil => rfl
  | cons a t ih => by_cases h : p (f a) <;> simp [h, ih]

/-- C2: after a successful apply with a stack, the stack's resources are
rewritten to exactly the non-REMOVE state records — each appearing once with
its current platform `ID()` and its current label associations, no REMOVE
record appearing — and `updatedAt` is set to the current time. -/
theorem updateStackAfterSuccess_rewrites_resources
    (state : stateCoordinator) (stack : Stack) (now : Time) :
    (updateStackAfterSuccess state stack now).updatedAt = now ∧
    (updateStackAfterSuccess state stack now).resources =
      (state.allRecordSummaries.filter (fun rec => !IsRemoval rec.status)).map
        (fun rec =>
          { apiVersion := APIVersion, id := rec.rid, kind := rec.kind
          , pkgName := rec.pkgName, associations := rec.assocs }) := by
  refine ⟨rfl, ?_⟩
  show updateStackAfterSuccessResources state = _
  unfold updateStackAfterSuccessResources stateCoordinator.allRecordSummaries
  simp only [List.filter_append, List.map_append, filter_map_comm, List.map_map,
    Function.comp]
  rfl

/-! ### C6 — rule-to-endpoint binding during dry-run -/

theorem exceptMap_eq_error {ε α β : Type} (f : α → β) (x : Except ε α) (e : ε) :
    (x.map f = .error e) ↔ x = .error e := by
  cases x <;> simp [Except.map]

theorem exceptMap_eq_ok {ε α β : Type} (f : α → β) (x : Except ε α) (b : β) :
    (x.map f = .ok b) ↔ ∃ a, x = .ok a ∧ f a = b := by
  cases x <;> simp [Except.map]

theorem bindRuleEndpoints_error_iff (endpoints : List (String × stateEndpoint))
    (l : List (String × stateRule)) :
    (∃ err, bindRuleEndpoints endpoints l = .error err ∧ err.code = EUnprocessableEntity) ↔
      l.any (fun kv => ruleLacksEndpoint endpoints kv.2) = true := by
  induction l with
  | nil => simp [bindRuleEndpoints]
  | cons kv t ih =>
    rw [List.any_cons]
    by_cases h1 : kv.2.associatedEndpoint.isSome
    · have hbad : ruleLacksEndpoint endpoints kv.2 = false := by
        simp [ruleLacksEndpoint, h1]
      have hstep : bindRuleEndpoints endpoints (kv :: t) =
          (bindRuleEndpoints endpoints t).map (fun out => kv :: out) := by
        simp [bindRuleEndpoints, h1]
      rw [hbad, Bool.false_or, hstep]
      constructor
      · rintro ⟨err, herr, hcode⟩
        exact ih.mp ⟨err, (exceptMap_eq_error _ _ _).mp herr, hcode⟩
      · intro hany
        obtain ⟨err, herr, hcode⟩ := ih.mpr hany
        exact ⟨err, by rw [herr]; rfl, hcode⟩
    · have h1' : kv.2.associatedEndpoint.isSome = false := by
        rwa [Bool.not_eq_true] at h1
      by_cases h2 : (!IsRemoval kv.2.stateStatus &&
          (mapGet endpoints kv.2.parserRule.endpointPkgName).isNone) = true
      · have hbad : ruleLacksEndpoint endpoints kv.2 = true := by
          simp only [Bool.and_eq_true] at h2
          simp [ruleLacksEndpoint, h1', h2.1, h2.2]
        rw [hbad, Bool.true_or]
        simp only [iff_true]
        refine ⟨⟨EUnprocessableEntity,
          "failed to find notification endpoint " ++ kv.2.parserRule.endpointName ++
            " dependency for notification rule " ++ kv.2.parserRule.pkgName⟩, ?_, rfl⟩
        simp [bindRuleEndpoints, h1', h2]
      · have h2' : (!IsRemoval kv.2.stateStatus &&
            (mapGet endpoints kv.2.parserRule.endpointPkgName).isNone) = false := by
          rwa [Bool.not_eq_true] at h2
        have hbad : ruleLacksEndpoint endpoints kv.2 = false := by
          simp [ruleLacksEndpoint, h1', h2']
        have hstep : bindRuleEndpoints endpoints (kv :: t) =
            (bindRuleEndpoints endpoints t).map
              (fun out => (kv.1, { kv.2 with associatedEndpoint := mapGet endpoints kv.2.parserRule.endpointPkgName }) :: out) := by
          simp [bindRuleEndpoints, h1', h2']
        rw [hbad, Bool.false_or, hstep]
        constructor
        · rintro ⟨err, herr, hcode⟩
          exact ih.mp ⟨err, (exceptMap_eq_error _ _ _).mp herr, hcode⟩
        · intro hany
          obtain ⟨err, herr, hcode⟩ := ih.mpr hany
          exact ⟨err, by rw [herr]; rfl, hcode⟩

theorem bindRuleEndpoints_ok_assoc (endpoints : List (String × stateEndpoint))
    (l : List (String × stateRule)) (out : List (String × stateRule)) :
    bindRuleEndpoints endpoints l = .ok out →
    out.map (fun kv => kv.2.associatedEndpoint) =
      l.map (fun kv =>
        if kv.2.associatedEndpoint.isSome then kv.2.associatedEndpoint
        else mapGet endpoints kv.2.parserRule.endpointPkgName) := by
  induction l generalizing out with
  | nil =>
    intro h
    simp only [bindRuleEndpoints] at h
    cases h
    rfl
  | cons kv t ih =>
    intro h
    by_cases h1 : kv.2.associatedEndpoint.isSome
    · have hstep : bindRuleEndpoints endpoints (kv :: t) =
          (bindRuleEndpoints endpoints t).map (fun out => kv :: out) := by
        simp [bindRuleEndpoints, h1]
      rw [hstep] at h
      obtain ⟨a, ha, hmap⟩ := (exceptMap_eq_ok _ _ _).mp h
      subst hmap
      simp [List.map_cons, ih a ha, h1]
    · have h1' : kv.2.associatedEndpoint.isSome = false := by
        rwa [Bool.not_eq_true] at h1
      by_cases h2 : (!IsRemoval kv.2.stateStatus &&
          (mapGet endpoints kv.2.parserRule.endpointPkgName).isNone) = true
      · exfalso
        have hstep : bindRuleEndpoints endpoints (kv :: t) = .error
            ⟨EUnprocessableEntity,
              "failed to find notification endpoint " ++ kv.2.parserRule.endpointName ++
                " dependency for notification rule " ++ kv.2.parserRule.pkgName⟩ := by
          simp [bindRuleEndpoints, h1', h2]
        rw [hstep] at h
        cases h
      · have h2' : (!IsRemoval kv.2.stateStatus &&
            (mapGet endpoints kv.2.parserRule.endpointPkgName).isNone) = false := by
          rwa [Bool.not_eq_true] at h2
        have hstep : bindRuleEndpoints endpoints (kv :: t) =
            (bindRuleEndpoints endpoints t).map
              (fun out => (kv.1, { kv.2 with associatedEndpoint := mapGet endpoints kv.2.parserRule.endpointPkgName }) :: out) := by
          simp [bindRuleEndpoints, h1', h2']
        rw [hstep] at h
        obtain ⟨a, ha, hmap⟩ := (exceptMap_eq_ok _ _ _).mp h
        subst hmap
        simp [List.map_cons, ih a ha, h1']

/-- C6: dry-run fails (with an UnprocessableEntity-coded error) exactly when
some rule has no associated endpoint, is not being removed, and its endpoint
pkg-name is absent from the state's endpoint map; on success every such rule
is bound to the endpoint its pkg-name selects (already-bound rules keep
their binding) and dry-run continues. -/
theorem dryRunNotificationRules_binding_spec (svc : RuleService) (orgID : InfluxID)
    (rules : List (String × stateRule)) (endpoints : List (String × stateEndpoint)) :
    ((∃ err, dryRunNotificationRules svc orgID rules endpoints = .error err ∧
        err.code = EUnprocessableEntity) ↔
      rules.any (fun kv => ruleLacksEndpoint endpoints kv.2) = true) ∧
    (∀ out, dryRunNotificationRules svc orgID rules endpoints = .ok out →
      out.map (fun kv => kv.2.associatedEndpoint) =
        rules.map (fun kv =>
          if kv.2.associatedEndpoint.isSome then kv.2.associatedEndpoint
          else mapGet endpoints kv.2.parserRule.endpointPkgName)) := by
  constructor
  · rw [show dryRunNotificationRules svc orgID rules endpoints =
        bindRuleEndpoints endpoints
          (rules.map (fun kv => (kv.1, dryRunRuleRecord svc orgID kv.2))) from rfl]
    rw [bindRuleEndpoints_error_iff]
    have hsame : ∀ kv : String × stateRule,
        ruleLacksEndpoint endpoints (dryRunRuleRecord svc orgID kv.2) =
          ruleLacksEndpoint endpoints kv.2 := fun _ => rfl
    simp [List.any_map, Function.comp, hsame]
  · intro out h
    rw [show dryRunNotificationRules svc orgID rules endpoints =
        bindRuleEndpoints endpoints
          (rules.map (fun kv => (kv.1, dryRunRuleRecord svc orgID kv.2))) from rfl] at h
    have hb := bindRuleEndpoints_ok_assoc endpoints
      (rules.map (fun kv => (kv.1, dryRunRuleRecord svc orgID kv.2))) out h
    rw [hb, List.map_map]
    rfl

/-- Witness for C6: a rule whose endpoint pkg-name is present binds to that
endpoint and dry-run succeeds. -/
theorem dryRunNotificationRules_binding_spec_witness :
    dryRunNotificationRules exRuleService 1 [("r1", exRuleGood)] exEndpoints =
      .ok exRuleBoundOut ∧
    exRuleBoundOut.map (fun kv => kv.2.associatedEndpoint) =
      [("r1", exRuleGood)].map (fun kv =>
        if kv.2.associatedEndpoint.isSome then kv.2.associatedEndpoint
        else mapGet exEndpoints kv.2.parserRule.endpointPkgName) := by
  refine ⟨rfl, ?_⟩
  exact (dryRunNotificationRules_binding_spec exRuleService 1 [("r1", exRuleGood)]
    exEndpoints).2 exRuleBoundOut rfl

/-! ### C5 — stack reconciliation into state -/

theorem identView_eq_famView (s : stateCoordinator) (k : Kind) (p : String) :
    s.identView k p = s.famView k.family p := by
  cases k <;> rfl

theorem setObjectID_eq_fam (s : stateCoordinator) (k : Kind) (p : String) (id : InfluxID) :
    s.setObjectID k p id = s.setObjectIDFam k.family p id := by
  cases k <;> rfl

theorem addObjectForRemoval_eq_fam (s : stateCoordinator) (k : Kind) (p : String)
    (id : InfluxID) :
    s.addObjectForRemoval k p id = s.addObjectForRemovalFam k.family p id := by
  cases k <;> rfl

theorem Contains_eq_isSome_famView (s : stateCoordinator) (k : Kind) (p : String) :
    s.Contains k p = (s.famView k.family p).isSome := by
  cases k <;>
    simp [stateCoordinator.Contains, stateCoordinator.famView, Kind.family, optMap_isSome]

theorem famView_setFam_self (s : stateCoordinator) (f : Family) (p : String) (id : InfluxID) :
    (s.setObjectIDFam f p id).famView f p =
      (s.famView f p).map
        (fun pre => ⟨id, StateStatusExists, pre.parserPkg, pre.hasExisting⟩) := by
  cases f <;>
    (simp only [stateCoordinator.setObjectIDFam]
     split
     · simp only [stateCoordinator.famView]
       rw [mapGet_mapUpd_self]
       simp only [Option.map_map]
       rfl
     · rename_i h
       rw [Option.not_isSome_iff_eq_none] at h
       simp [stateCoordinator.famView, h])

theorem famView_addFam_self (s : stateCoordinator) (f : Family) (p : String) (id : InfluxID) :
    (s.addObjectForRemovalFam f p id).famView f p =
      some ⟨id, StateStatusRemove, p, false⟩ := by
  cases f <;>
    simp [stateCoordinator.addObjectForRemovalFam, stateCoordinator.famView, mapGet_mapPut_self]

theorem famView_setFam_frame (s : stateCoordinator) (f f' : Family) (p p' : String)
    (id : InfluxID) (h : f' ≠ f ∨ p' ≠ p) :
    (s.setObjectIDFam f' p' id).famView f p = s.famView f p := by
  cases f' <;> cases f <;>
    first
    | (simp only [stateCoordinator.setObjectIDFam]
       split <;> rfl)
    | (have hp : p' ≠ p := by
         rcases h with h1 | h1
         · exact absurd rfl h1
         · exact h1
       simp only [stateCoordinator.setObjectIDFam]
       split
       · simp only [stateCoordinator.famView]
         rw [mapGet_mapUpd_ne _ _ _ _ hp]
       · rfl)

theorem famView_addFam_frame (s : stateCoordinator) (f f' : Family) (p p' : String)
    (id : InfluxID) (h : f' ≠ f ∨ p' ≠ p) :
    (s.addObjectForRemovalFam f' p' id).famView f p = s.famView f p := by
  cases f' <;> cases f <;>
    first
    | (simp only [stateCoordinator.addObjectForRemovalFam]
       rfl)
    | (have hp : p' ≠ p := by
         rcases h with h1 | h1
         · exact absurd rfl h1
         · exact h1
       simp only [stateCoordinator.addObjectForRemovalFam, stateCoordinator.famView]
       rw [mapGet_mapPut_ne _ _ _ _ hp])

theorem reconcileStep_frame (st : stateCoordinator) (r : StackResource) (f : Family)
    (p : String) (h : ¬((r.kind.family, r.pkgName) = (f, p))) :
    (reconcileStep st r).famView f p = st.famView f p := by
  have h' : r.kind.family ≠ f ∨ r.pkgName ≠ p := by
    rcases eq_or_ne r.kind.family f with hf | hf
    · right
      intro hp
      exact h (by rw [hf, hp])
    · left
      exact hf
  unfold reconcileStep
  split
  · rw [addObjectForRemoval_eq_fam]
    exact famView_addFam_frame st f r.kind.family p r.pkgName r.id h'
  · rw [setObjectID_eq_fam]
    exact famView_setFam_frame st f r.kind.family p r.pkgName r.id h'

theorem reconcile_frame (rs : List StackResource) (st : stateCoordinator) (f : Family)
    (p : String) (h : ∀ r ∈ rs, ¬((r.kind.family, r.pkgName) = (f, p))) :
    (st.reconcileStackResources rs).famView f p = st.famView f p := by
  induction rs generalizing st with
  | nil => rfl
  | cons r rest ih =>
    calc (st.reconcileStackResources (r :: rest)).famView f p
        = ((reconcileStep st r).reconcileStackResources rest).famView f p := rfl
      _ = (reconcileStep st r).famView f p :=
          ih (reconcileStep st r) (fun r' hr' => h r' (List.mem_cons_of_mem _ hr'))
      _ = st.famView f p := reconcileStep_frame st r f p (h r (List.mem_cons_self _ _))

theorem reconcileStep_self (st : stateCoordinator) (r : StackResource) :
    (reconcileStep st r).famView r.kind.family r.pkgName =
      if st.Contains r.kind r.pkgName then
        (st.famView r.kind.family r.pkgName).map
          (fun pre => ⟨r.id, StateStatusExists, pre.parserPkg, pre.hasExisting⟩)
      else some ⟨r.id, StateStatusRemove, r.pkgName, false⟩ := by
  unfold reconcileStep
  by_cases hc : st.Contains r.kind r.pkgName
  · rw [if_pos hc]
    have hnot : (!(st.Contains r.kind r.pkgName)) = false := by simp [hc]
    rw [hnot]
    simp only [Bool.false_eq_true, if_false]
    rw [setObjectID_eq_fam]
    exact famView_setFam_self st r.kind.family r.pkgName r.id
  · rw [if_neg hc]
    have hnot : (!(st.Contains r.kind r.pkgName)) = true := by
      simp [Bool.not_eq_true', Bool.not_eq_true] at hc ⊢
      exact hc
    rw [hnot]
    simp only [if_true]
    rw [addObjectForRemoval_eq_fam]
    exact famView_addFam_self st r.kind.family r.pkgName r.id

theorem reconcile_spec_general (s₀ : stateCoordinator) (rs : List StackResource)
    (hnd : (rs.map (fun r => (r.kind.family, r.pkgName))).Nodup) :
    ∀ r ∈ rs,
      (s₀.Contains r.kind r.pkgName = true →
        (s₀.reconcileStackResources rs).famView r.kind.family r.pkgName =
          (s₀.famView r.kind.family r.pkgName).map
            (fun pre => ⟨r.id, StateStatusExists, pre.parserPkg, pre.hasExisting⟩)) ∧
      (s₀.Contains r.kind r.pkgName = false →
        (s₀.reconcileStackResources rs).famView r.kind.family r.pkgName =
          some ⟨r.id, StateStatusRemove, r.pkgName, false⟩) := by
  induction rs generalizing s₀ with
  | nil =>
    intro r hr
    cases hr
  | cons r₀ rest ih =>
    rw [List.map_cons, List.nodup_cons] at hnd
    obtain ⟨hnotin, hnd'⟩ := hnd
    intro r hr
    rcases List.mem_cons.mp hr with rfl | hmem
    · have hframe :
          ((reconcileStep s₀ r).reconcileStackResources rest).famView r.kind.family r.pkgName =
            (reconcileStep s₀ r).famView r.kind.family r.pkgName := by
        apply reconcile_frame
        intro r' hr' heq
        exact hnotin (heq ▸ List.mem_map_of_mem _ hr')
      constructor
      · intro hc
        calc (s₀.reconcileStackResources (r :: rest)).famView r.kind.family r.pkgName
            = (reconcileStep s₀ r).famView r.kind.family r.pkgName := hframe
          _ = _ := by rw [reconcileStep_self, if_pos hc]
      · intro hc
        calc (s₀.reconcileStackResources (r :: rest)).famView r.kind.family r.pkgName
            = (reconcileStep s₀ r).famView r.kind.family r.pkgName := hframe
          _ = _ := by rw [reconcileStep_self, if_neg (by simp [hc])]
    · have hkeyne : ¬((r₀.kind.family, r₀.pkgName) = (r.kind.family, r.pkgName)) := by
        intro heq
        exact hnotin (heq ▸ List.mem_map_of_mem _ hmem)
      have hview : (reconcileStep s₀ r₀).famView r.kind.family r.pkgName =
          s₀.famView r.kind.family r.pkgName :=
        reconcileStep_frame s₀ r₀ _ _ hkeyne
      have hcontains : (reconcileStep s₀ r₀).Contains r.kind r.pkgName =
          s₀.Contains r.kind r.pkgName := by
        rw [Contains_eq_isSome_famView, Contains_eq_isSome_famView, hview]
      have IH := ih (reconcileStep s₀ r₀) hnd' r hmem
      constructor
      · intro hc
        have h1 := IH.1 (by rw [hcontains]; exact hc)
        calc (s₀.reconcileStackResources (r₀ :: rest)).famView r.kind.family r.pkgName
            = ((reconcileStep s₀ r₀).reconcileStackResources rest).famView
                r.kind.family r.pkgName := rfl
          _ = _ := by rw [h1, hview]
      · intro hc
        have h1 := IH.2 (by rw [hcontains]; exact hc)
        calc (s₀.reconcileStackResources (r₀ :: rest)).famView r.kind.family r.pkgName
            = ((reconcileStep s₀ r₀).reconcileStackResources rest).famView
                r.kind.family r.pkgName := rfl
          _ = _ := h1

theorem Contains_newStateCoordinator (pkg : Pkg) (k : Kind) (p : String) :
    (newStateCoordinator pkg).Contains k p = pkg.contains k p := by
  cases k <;>
    (simp only [newStateCoordinator, stateCoordinator.Contains, Pkg.contains, Kind.family]
     rw [mapGet_isSome_foldl_mapPut]
     simp [mapGet])

/-- C5: when stack state is added to the state coordinator, every stack
resource whose (kind, pkg-name) the package contains has its record's id set
to the stack-recorded id and its status promoted to EXISTS (parser identity
and existing attachment untouched); every stack resource the package lacks
gets a synthetic record injected — status REMOVE, carrying the stack-recorded
id, a parser identity holding only the pkg-name, and no existing entity. -/
theorem reconcileStackResources_spec (pkg : Pkg) (rs : List StackResource)
    (hnd : (rs.map (fun r => (r.kind.family, r.pkgName))).Nodup) :
    ∀ r ∈ rs,
      (pkg.contains r.kind r.pkgName = true →
        ((newStateCoordinator pkg).reconcileStackResources rs).identView r.kind r.pkgName =
          ((newStateCoordinator pkg).identView r.kind r.pkgName).map
            (fun pre => ⟨r.id, StateStatusExists, pre.parserPkg, pre.hasExisting⟩)) ∧
      (pkg.contains r.kind r.pkgName = false →
        ((newStateCoordinator pkg).reconcileStackResources rs).identView r.kind r.pkgName =
          some ⟨r.id, StateStatusRemove, r.pkgName, false⟩) := by
  intro r hr
  have hg := reconcile_spec_general (newStateCoordinator pkg) rs hnd r hr
  constructor
  · intro hc
    have h1 := hg.1 (by rw [Contains_newStateCoordinator]; exact hc)
    rw [identView_eq_famView, identView_eq_famView]
    exact h1
  · intro hc
    have h1 := hg.2 (by rw [Contains_newStateCoordinator]; exact hc)
    rw [identView_eq_famView]
    exact h1

/-- Witness for C5: against a package holding bucket "b1", a stack with
bucket "b1" (id 7) and label "l1" (id 9) reconciles to: the bucket record
re-id'd and promoted, and a synthetic REMOVE label record holding id 9. -/
theorem reconcileStackResources_spec_witness :
    (((newStateCoordinator exPkg).reconcileStackResources exStackResources).identView
        Kind.bucket "b1" =
      ((newStateCoordinator exPkg).identView Kind.bucket "b1").map
        (fun pre => ⟨7, StateStatusExists, pre.parserPkg, pre.hasExisting⟩)) ∧
    (((newStateCoordinator exPkg).reconcileStackResources exStackResources).identView
        Kind.label "l1" = some ⟨9, StateStatusRemove, "l1", false⟩) := by
  constructor
  · exact (reconcileStackResources_spec exPkg exStackResources (by decide)
      { apiVersion := APIVersion, id := 7, kind := Kind.bucket, pkgName := "b1" }
      (by decide)).1 (by decide)
  · exact (reconcileStackResources_spec exPkg exStackResources (by decide)
      { apiVersion := APIVersion, id := 9, kind := Kind.label, pkgName := "l1" }
      (by decide)).2 (by decide)

end Pkger
